import Mathlib

/-!
# Verification of the termviz spatial projection and marker lifecycle core

This development shallowly embeds the parts of the termviz source that the
checked properties speak about:

* `src/transformation.rs` — quaternion/isometry based point projection;
* `src/footprint.rs` — robot footprint edge generation;
* `src/marker.rs` — marker shape decoding, the namespaced marker container,
  the marker lifecycle (timed expiry through scheduled guard tasks) and the
  two subscriber callbacks;
* `src/laser.rs` — the laser scan listener callback;
* `src/app_modes/viewport.rs` — zoom handling and the aspect-corrected view
  bounds;
* `src/app_modes/teleoperate.rs` — the safe-mode velocity decay law;
* `src/app_modes/send_pose.rs` — the pose-estimate confirm action.

Modelling conventions:

* `f64` values are modelled exactly by `ℚ` (an exact-real model of the field
  operations the code performs; the embedded code only uses `+ - * /` on the
  paths the theorems talk about).
* Transcendental operations (`cos`, `sin`, `sqrt`, `atan2`, Euler angle
  extraction, `Isometry3::face_towards`) have no rational realisation; they
  are abstracted as an explicit oracle record `RealOps` that is passed to the
  decoders exactly where the source calls them.  Every theorem below holds
  for an arbitrary oracle, so nothing is proved "about" these operations.
* A Rust `panic!`/`unwrap`/`expect` failure is modelled by returning `none`
  from an `Option`-valued embedding of the function in question.
* `nalgebra`'s `UnitQuaternion::new_normalize(q)` followed by point rotation
  is implemented by the exact rational formula
  `v + (2/s) (qv × (qv × v + w v))` with `s = ‖q‖²`, which agrees with
  rotating by the normalised quaternion and keeps all arithmetic in `ℚ`.
* Hash maps keyed by namespace strings / marker ids are modelled as
  association lists; iteration order is fixed by the list but no theorem
  depends on a particular order beyond emptiness/membership.
-/

/-- Rational scalar standing for an exactly-tracked `f64` value. -/
abbrev Scalar := ℚ

/-- Three dimensional vector over the scalar model (`nalgebra::Vector3`). -/
structure Vec3 where
  x : Scalar
  y : Scalar
  z : Scalar
deriving DecidableEq, Repr

namespace Vec3

def add (a b : Vec3) : Vec3 := ⟨a.x + b.x, a.y + b.y, a.z + b.z⟩

def neg (a : Vec3) : Vec3 := ⟨-a.x, -a.y, -a.z⟩

def smul (c : Scalar) (a : Vec3) : Vec3 := ⟨c * a.x, c * a.y, c * a.z⟩

/-- Cross product of two vectors. -/
def cross (a b : Vec3) : Vec3 :=
  ⟨a.y * b.z - a.z * b.y, a.z * b.x - a.x * b.z, a.x * b.y - a.y * b.x⟩

end Vec3

/-- Quaternion with real part `w` (`nalgebra::Quaternion::new(w, x, y, z)`). -/
structure QuatM where
  w : Scalar
  x : Scalar
  y : Scalar
  z : Scalar
deriving DecidableEq, Repr

namespace QuatM

/-- Identity quaternion. -/
def id : QuatM := ⟨1, 0, 0, 0⟩

/-- Vector (imaginary) part. -/
def vec (q : QuatM) : Vec3 := ⟨q.x, q.y, q.z⟩

/-- Squared norm of the quaternion. -/
def normSq (q : QuatM) : Scalar := q.w * q.w + q.x * q.x + q.y * q.y + q.z * q.z

/-- Conjugate quaternion: the inverse rotation for a (normalised) quaternion. -/
def conj (q : QuatM) : QuatM := ⟨q.w, -q.x, -q.y, -q.z⟩

/-- Hamilton product, composing the two rotations. -/
def mul (a b : QuatM) : QuatM :=
  ⟨a.w * b.w - a.x * b.x - a.y * b.y - a.z * b.z,
   a.w * b.x + a.x * b.w + a.y * b.z - a.z * b.y,
   a.w * b.y - a.x * b.z + a.y * b.w + a.z * b.x,
   a.w * b.z + a.x * b.y - a.y * b.x + a.z * b.w⟩

/-- Rotation of a point by `UnitQuaternion::new_normalize q`: the exact
rational form `v + (2/s) (qv × (qv × v + w v))` with `s = ‖q‖²`.  (For the
degenerate `q = 0`, which `nalgebra` would turn into NaNs, `ℚ` division by
zero makes this the identity; no theorem relies on that case.) -/
def rotate (q : QuatM) (v : Vec3) : Vec3 :=
  let s := q.normSq
  let qv := q.vec
  Vec3.add v (Vec3.smul (2 / s) (Vec3.cross qv (Vec3.add (Vec3.cross qv v) (Vec3.smul q.w v))))

end QuatM

/-- Rigid transform: rotation (as a to-be-normalised quaternion) plus
translation; the model of `nalgebra::Isometry3` values built by the code. -/
structure IsoM where
  rot : QuatM
  trans : Vec3
deriving DecidableEq, Repr

namespace IsoM

def id : IsoM := ⟨QuatM.id, ⟨0, 0, 0⟩⟩

/-- Model of `Isometry3::transform_point`. -/
def transformPoint (i : IsoM) (p : Vec3) : Vec3 :=
  Vec3.add (QuatM.rotate i.rot p) i.trans

/-- Model of `Isometry3::inverse`: `(R, t)⁻¹ = (R⁻¹, -(R⁻¹ t))`. -/
def inverse (i : IsoM) : IsoM :=
  ⟨i.rot.conj, Vec3.neg (QuatM.rotate i.rot.conj i.trans)⟩

/-- Model of isometry composition `a * b`. -/
def comp (a b : IsoM) : IsoM :=
  ⟨a.rot.mul b.rot, Vec3.add (QuatM.rotate a.rot b.trans) a.trans⟩

end IsoM

/-! ## ROS message records (rosrust_msg geometry_msgs / visualization_msgs) -/

/-- Mirror of `geometry_msgs::Vector3`. -/
structure Vector3Msg where
  x : Scalar
  y : Scalar
  z : Scalar
deriving DecidableEq, Repr

/-- Mirror of `geometry_msgs::Point`. -/
structure PointMsg where
  x : Scalar
  y : Scalar
  z : Scalar
deriving DecidableEq, Repr

/-- Mirror of `geometry_msgs::Quaternion` (fields in message order). -/
structure QuaternionMsg where
  x : Scalar
  y : Scalar
  z : Scalar
  w : Scalar
deriving DecidableEq, Repr

/-- Mirror of `geometry_msgs::Transform`. -/
structure TransformMsg where
  translation : Vector3Msg
  rotation : QuaternionMsg
deriving DecidableEq, Repr

/-- Mirror of `geometry_msgs::Pose`. -/
structure PoseMsg where
  position : PointMsg
  orientation : QuaternionMsg
deriving DecidableEq, Repr

/-- Identity transform message. -/
def TransformMsg.id : TransformMsg := ⟨⟨0, 0, 0⟩, ⟨0, 0, 0, 1⟩⟩

/-- Identity pose message. -/
def PoseMsg.id : PoseMsg := ⟨⟨0, 0, 0⟩, ⟨0, 0, 0, 1⟩⟩

/-- Conversion used throughout the code (`rustros_tf`'s
`isometry_from_transform`, and the inline construction in
`transformation::transform_relative_pt`): quaternion built as
`Quaternion::new(w, x, y, z)` and normalised on use. -/
def isometry_from_transform (t : TransformMsg) : IsoM :=
  ⟨⟨t.rotation.w, t.rotation.x, t.rotation.y, t.rotation.z⟩,
   ⟨t.translation.x, t.translation.y, t.translation.z⟩⟩

/-- Conversion `rustros_tf`'s `isometry_from_pose`: same construction from a
pose message. -/
def isometry_from_pose (p : PoseMsg) : IsoM :=
  ⟨⟨p.orientation.w, p.orientation.x, p.orientation.y, p.orientation.z⟩,
   ⟨p.position.x, p.position.y, p.position.z⟩⟩

/-! ## src/transformation.rs -/

/-- Embedding of `transformation::transform_relative_pt`: lift the 2D point to
`z = 0`, apply the isometry built from the transform message, and drop `z`. -/
def transform_relative_pt (tf : TransformMsg) (pt : Scalar × Scalar) : Scalar × Scalar :=
  let iso := isometry_from_transform tf
  let p := iso.transformPoint ⟨pt.1, pt.2, 0⟩
  (p.x, p.y)

/-! ## src/footprint.rs -/

/-- Embedding of `footprint::get_current_footprint`.

The source runs `for i in 0..footprint_poly.len() - 1` on a `usize` length and
then indexes `footprint_poly[footprint_poly.len() - 1]`; on an empty polygon
the `len() - 1` subtraction underflows and the indexing is out of bounds, so
the call panics.  That panic is modelled by `none`.  For a non-empty polygon
the result is the per-edge segment list followed by the closing segment. -/
def get_current_footprint (tf : TransformMsg) (footprint_poly : List (Scalar × Scalar)) :
    Option (List (Scalar × Scalar × Scalar × Scalar)) :=
  match footprint_poly with
  | [] => none
  | _ =>
    let n := footprint_poly.length
    let seg := fun (i : ℕ) =>
      let pt0 := transform_relative_pt tf (footprint_poly.getD i (0, 0))
      let pt1 := transform_relative_pt tf (footprint_poly.getD (i + 1) (0, 0))
      (pt0.1, pt0.2, pt1.1, pt1.2)
    let p_end := transform_relative_pt tf (footprint_poly.getD (n - 1) (0, 0))
    let p_start := transform_relative_pt tf (footprint_poly.getD 0 (0, 0))
    some ((List.range (n - 1)).map seg ++ [(p_end.1, p_end.2, p_start.1, p_start.2)])

/-! ## src/marker.rs — shape decoding -/

/-- Mirror of the `tui::style::Color` variants the code constructs. -/
inductive ColorM where
  | Rgb (r g b : ℕ)
  | Red
  | Green
  | Blue
  | Gray
deriving DecidableEq, Repr

/-- Mirror of `tui::widgets::canvas::Line`. -/
structure LineM where
  x1 : Scalar
  y1 : Scalar
  x2 : Scalar
  y2 : Scalar
  color : ColorM
deriving DecidableEq, Repr

/-- Mirror of `std_msgs::ColorRGBA`. -/
structure ColorRGBAMsg where
  r : Scalar
  g : Scalar
  b : Scalar
  a : Scalar
deriving DecidableEq, Repr

/-- Mirror of `rosrust::Duration` (marker lifetime). -/
structure DurationMsg where
  sec : Int
  nsec : Int
deriving DecidableEq, Repr

/-- Mirror of `std_msgs::Header` (only the fields the marker code touches). -/
structure HeaderMsg where
  frame_id : String
  stamp : Scalar
deriving DecidableEq, Repr

/-- Mirror of `visualization_msgs::Marker`. -/
structure MarkerMsg where
  header : HeaderMsg
  ns : String
  id : Int
  type_ : Int
  action : Int
  pose : PoseMsg
  scale : Vector3Msg
  color : ColorRGBAMsg
  lifetime : DurationMsg
  points : List PointMsg
  colors : List ColorRGBAMsg
deriving DecidableEq, Repr

/-- Rust `expr as u8` on an `i32`/`u8`-ranged value: keep the low byte. -/
def as_u8 (v : Int) : ℕ := (v % 256).toNat

/-- Rust saturating float-to-`u8` cast used for the colour channels. -/
def f64_as_u8 (v : Scalar) : ℕ :=
  if v ≤ 0 then 0 else if 255 ≤ v then 255 else v.floor.toNat

/-- Colour built by `parse_marker_msg` / `parse_line_list_msg` from a float
RGB triple. -/
def color_from_rgb (r g b : Scalar) : ColorM :=
  ColorM.Rgb (f64_as_u8 (r * 255)) (f64_as_u8 (g * 255)) (f64_as_u8 (b * 255))

/-- Oracle for the transcendental operations of the decoders.  The source
calls these on `f64`; they have no rational realisation, so they are abstract
parameters here and every theorem holds for an arbitrary instance. -/
structure RealOps where
  pi : Scalar
  cos : Scalar → Scalar
  sin : Scalar → Scalar
  sqrt : Scalar → Scalar
  atan2 : Scalar → Scalar → Scalar
  /-- Point transformation by `Isometry3::face_towards(eye, target, up)`. -/
  faceTowardsPt : Vec3 → Vec3 → Vec3 → Vec3 → Vec3
  /-- Euler angles (roll, pitch, yaw) of a rotation, `Rotation::euler_angles`. -/
  eulerAngles : QuatM → Scalar × Scalar × Scalar

/-- Trivial oracle instance, used only to instantiate counterexamples whose
evaluation never reaches an oracle call. -/
def trivOps : RealOps :=
  ⟨0, fun _ => 0, fun _ => 0, fun _ => 0, fun _ _ => 0, fun _ _ _ p => p, fun _ => (0, 0, 0)⟩

/-- Inner loop of `from_point_strips` over one strip, carrying the
`previous_point` option exactly like the source. -/
def strip_lines (color : ColorM) : Option Vec3 → List Vec3 → List LineM
  | _, [] => []
  | none, p :: rest => strip_lines color (some p) rest
  | some pp, p :: rest =>
    ⟨pp.x, pp.y, p.x, p.y, color⟩ :: strip_lines color (some p) rest

/-- Embedding of `from_point_strips`: each strip of N points contributes its
N-1 connecting lines. -/
def from_point_strips (strips : List (List Vec3)) (color : ColorM) : List LineM :=
  strips.flatMap (strip_lines color none)

/-- Embedding of `parse_cube`: the top face strip always, all edges when the
roll or pitch of the rotation exceeds `1e-4`. -/
def parse_cube (ops : RealOps) (dimension : Vector3Msg) (offset : PointMsg)
    (color : ColorM) (iso : IsoM) : List LineM :=
  let angles := ops.eulerAngles iso.rot
  let pt := fun (sx sy sz : Scalar) =>
    iso.transformPoint
      ⟨offset.x + sx * dimension.x / 2, offset.y + sy * dimension.y / 2,
       offset.z + sz * dimension.z / 2⟩
  let face_top := [pt 1 1 1, pt 1 (-1) 1, pt (-1) (-1) 1, pt (-1) 1 1, pt 1 1 1]
  let strips :=
    if 1 / 10000 < |angles.1| ∨ 1 / 10000 < |angles.2.1| then
      [face_top,
       [pt 1 1 (-1), pt 1 (-1) (-1), pt (-1) (-1) (-1), pt (-1) 1 (-1), pt 1 1 (-1)],
       [pt 1 1 1, pt 1 1 (-1)], [pt (-1) 1 1, pt (-1) 1 (-1)],
       [pt 1 (-1) 1, pt 1 (-1) (-1)], [pt (-1) (-1) 1, pt (-1) (-1) (-1)]]
    else
      [face_top]
  from_point_strips strips color

/-- Embedding of `parse_arrow_msg`.  The match is on `msg.points.len()`: the
`0` and `2` branches build the arrow geometry, and any other length falls to
the wildcard branch returning an empty line list (the function never
panics). -/
def parse_arrow_msg (ops : RealOps) (msg : MarkerMsg) (color : ColorM) (iso : IsoM) :
    List LineM :=
  match msg.points with
  | [] =>
    let p1 := iso.transformPoint ⟨0, 0, 0⟩
    let p2 := iso.transformPoint ⟨msg.scale.x, 0, 0⟩
    let angle := ops.pi / 4
    let r := msg.scale.y / 2 / ops.cos angle
    let a := ops.pi - angle
    let b := ops.pi + angle
    let p3_right := iso.transformPoint ⟨msg.scale.x + r * ops.cos a, r * ops.sin a, 0⟩
    let p3_left := iso.transformPoint ⟨msg.scale.x + r * ops.cos b, r * ops.sin b, 0⟩
    [⟨p1.x, p1.y, p2.x, p2.y, color⟩,
     ⟨p2.x, p2.y, p3_right.x, p3_right.y, color⟩,
     ⟨p2.x, p2.y, p3_left.x, p3_left.y, color⟩]
  | [start, end_] =>
    let p1 := iso.transformPoint ⟨start.x, start.y, start.z⟩
    let p2 := iso.transformPoint ⟨end_.x, end_.y, end_.z⟩
    let half_head_width := msg.scale.y / 2
    let angle := ops.atan2 half_head_width msg.scale.z
    let r := ops.sqrt (half_head_width ^ 2 + msg.scale.z ^ 2)
    let p3_right := ops.faceTowardsPt p2 p1 ⟨0, 1, 0⟩ ⟨0, r * ops.sin angle, r * ops.cos angle⟩
    let p3_left := ops.faceTowardsPt p2 p1 ⟨0, 1, 0⟩ ⟨0, -(r * ops.sin angle), r * ops.cos angle⟩
    [⟨p1.x, p1.y, p2.x, p2.y, color⟩,
     ⟨p2.x, p2.y, p3_right.x, p3_right.y, color⟩,
     ⟨p2.x, p2.y, p3_left.x, p3_left.y, color⟩]
  | _ => []

/-- Embedding of `parse_cube_msg`: optional centre offset from `points[0]`. -/
def parse_cube_msg (ops : RealOps) (msg : MarkerMsg) (color : ColorM) (iso : IsoM) :
    List LineM :=
  match msg.points.head? with
  | none => parse_cube ops msg.scale ⟨0, 0, 0⟩ color iso
  | some off => parse_cube ops msg.scale off color iso

/-- Embedding of `parse_cube_list_msg`: one cube per point. -/
def parse_cube_list_msg (ops : RealOps) (msg : MarkerMsg) (color : ColorM) (iso : IsoM) :
    List LineM :=
  msg.points.flatMap (fun p => parse_cube ops msg.scale p color iso)

/-- Embedding of `parse_points_msg` (delegates to the cube list decoder). -/
def parse_points_msg (ops : RealOps) (msg : MarkerMsg) (color : ColorM) (iso : IsoM) :
    List LineM :=
  parse_cube_list_msg ops msg color iso

/-- Embedding of `parse_line_strip_msg`: transform all points, one strip. -/
def parse_line_strip_msg (msg : MarkerMsg) (color : ColorM) (iso : IsoM) : List LineM :=
  let points := msg.points.map (fun p => iso.transformPoint ⟨p.x, p.y, p.z⟩)
  from_point_strips [points] color

/-- Loop of `parse_line_list_msg`: consume the points two at a time and the
colour list two entries per line (the second of each pair is discarded).  The
source calls `point_it.next().expect("Malformed message.")` for the second
point of a pair, so an odd point count panics — modelled by `none`. -/
def line_list_go (color : ColorM) (iso : IsoM) :
    List PointMsg → List ColorRGBAMsg → Option (List LineM)
  | [], _ => some []
  | [_], _ => none
  | msg_p1 :: msg_p2 :: rest, colors =>
    let local_color :=
      match colors.head? with
      | some x => color_from_rgb x.r x.g x.b
      | none => color
    let p1 := iso.transformPoint ⟨msg_p1.x, msg_p1.y, msg_p1.z⟩
    let p2 := iso.transformPoint ⟨msg_p2.x, msg_p2.y, msg_p2.z⟩
    (line_list_go color iso rest (colors.drop 2)).map
      (fun lines => ⟨p1.x, p1.y, p2.x, p2.y, local_color⟩ :: lines)

/-- Embedding of `parse_line_list_msg`. -/
def parse_line_list_msg (msg : MarkerMsg) (color : ColorM) (iso : IsoM) :
    Option (List LineM) :=
  line_list_go color iso msg.points msg.colors

/-- Mirror of the `TermvizMarker` struct: the decoded lines plus the id. -/
structure TermvizMarker where
  lines : List LineM
  id : Int
deriving DecidableEq, Repr

/-- Embedding of `parse_marker_msg`: build the drawing isometry from the
looked-up transform and the marker pose, convert the colour, and dispatch on
`msg.type_ as u8` (ARROW = 0, CUBE = 1, LINE_STRIP = 4, LINE_LIST = 5,
CUBE_LIST = 6, POINTS = 8; any other type yields no lines).  The line-list
decoder can panic, hence the `Option`. -/
def parse_marker_msg (ops : RealOps) (msg : MarkerMsg) (tf : TransformMsg) :
    Option TermvizMarker :=
  let iso := (isometry_from_transform tf).inverse.comp (isometry_from_pose msg.pose)
  let color := color_from_rgb msg.color.r msg.color.g msg.color.b
  let res : Option (List LineM) :=
    match as_u8 msg.type_ with
    | 0 => some (parse_arrow_msg ops msg color iso)
    | 1 => some (parse_cube_msg ops msg color iso)
    | 6 => some (parse_cube_list_msg ops msg color iso)
    | 8 => some (parse_points_msg ops msg color iso)
    | 4 => some (parse_line_strip_msg msg color iso)
    | 5 => parse_line_list_msg msg color iso
    | _ => some []
  res.map (fun lines => ⟨lines, msg.id⟩)

/-! ## src/marker.rs — container and lifecycle

Association-list helpers standing for the `HashMap` operations the container
performs.  Keys are unique in every list the operations construct. -/

section AList

variable {κ α : Type} [DecidableEq κ]

/-- Lookup, `HashMap::get`. -/
def alistGet (k : κ) : List (κ × α) → Option α
  | [] => none
  | (k', v) :: rest => if k' = k then some v else alistGet k rest

/-- Insert-or-replace in place, `HashMap::insert`. -/
def alistInsert (k : κ) (v : α) : List (κ × α) → List (κ × α)
  | [] => [(k, v)]
  | (k', v') :: rest =>
    if k' = k then (k, v) :: rest else (k', v') :: alistInsert k v rest

/-- Modify the value when the key is present, `entry().and_modify(f)`. -/
def alistModify (k : κ) (f : α → α) : List (κ × α) → List (κ × α)
  | [] => []
  | (k', v) :: rest =>
    if k' = k then (k', f v) :: rest else (k', v) :: alistModify k f rest

/-- Remove the entry when present, `HashMap::remove`. -/
def alistRemove (k : κ) : List (κ × α) → List (κ × α)
  | [] => []
  | (k', v) :: rest =>
    if k' = k then rest else (k', v) :: alistRemove k rest

/-- Combined `entry().and_modify(f).or_insert_with(d)`. -/
def alistUpsert (k : κ) (f : α → α) (d : α) (l : List (κ × α)) : List (κ × α) :=
  if (alistGet k l).isSome then alistModify k f l else l ++ [(k, d)]

end AList

/-- State of `TermvizMarkerContainer`: the double dictionary, namespaces on
the outside, marker ids inside.  (The `static_frame` / `tf_listener` fields
are connection state; the transform lookup they serve is modelled as the
`Option TransformMsg` argument of `container_add_marker`.) -/
structure ContainerState where
  markers : List (String × List (Int × TermvizMarker))
deriving DecidableEq, Repr

/-- Empty container, `TermvizMarkerContainer::new`. -/
def containerNew : ContainerState := ⟨[]⟩

/-- Embedding of `TermvizMarkerContainer::add_marker`.  `lookup` is the
result of `tf_listener.lookup_transform(marker.frame_id, static_frame,
stamp)`: on `Err` the function returns with no state change; on `Ok` the
message is parsed (inside both the `and_modify` and `or_insert_with`
closures) and stored under `(ns, id)`, replacing any previous entry.  A parse
panic propagates (`none`). -/
def container_add_marker (ops : RealOps) (lookup : Option TransformMsg)
    (marker : MarkerMsg) (c : ContainerState) : Option ContainerState :=
  match lookup with
  | none => some c
  | some tf =>
    match parse_marker_msg ops marker tf with
    | none => none
    | some res =>
      some ⟨alistUpsert marker.ns (alistInsert res.id res) [(res.id, res)] c.markers⟩

/-- Embedding of `TermvizMarkerContainer::delete_marker`: remove the id from
its namespace when the namespace exists; idempotent otherwise. -/
def container_delete_marker (marker_ns : String) (marker_id : Int) (c : ContainerState) :
    ContainerState :=
  ⟨alistModify marker_ns (alistRemove marker_id) c.markers⟩

/-- Embedding of `TermvizMarkerContainer::clear`. -/
def container_clear (_c : ContainerState) : ContainerState := ⟨[]⟩

/-- Embedding of `TermvizMarkerContainer::clear_namespace`: collect the ids
stored under the namespace and empty it (the namespace entry itself stays). -/
def container_clear_namespace (marker_ns : String) (c : ContainerState) :
    List Int × ContainerState :=
  let ids := match alistGet marker_ns c.markers with
    | none => []
    | some namespace_ => namespace_.map (fun e => e.2.id)
  (ids, ⟨alistModify marker_ns (fun _ => []) c.markers⟩)

/-- Embedding of `TermvizMarkerContainer::get_lines`: flatten every marker's
lines across all namespaces. -/
def container_get_lines (c : ContainerState) : List LineM :=
  c.markers.flatMap (fun ns => ns.2.flatMap (fun e => e.2.lines))

/-- Membership of a `(ns, id)` key in the container. -/
def containerHas (c : ContainerState) (ns : String) (id : Int) : Bool :=
  ((alistGet ns c.markers).bind (alistGet id)).isSome

/-- One scheduled expiry guard: its fire time and whether its one-shot task
has already run.  Dropping a `timer::Guard` cancels the scheduled task; the
code drops a guard by replacing it in the `guards` map, which the model
renders as `alistInsert` of a fresh entry. -/
structure GuardE where
  fireAt : Scalar
  fired : Bool
deriving DecidableEq, Repr

/-- State of `MarkersLifecycle`: the shared container, the list of manually
deleted keys awaiting guard cleanup, and the guard map. -/
structure LifecycleState where
  container : ContainerState
  deletedMarkers : List (String × Int)
  guards : List ((String × Int) × GuardE)
deriving DecidableEq, Repr

/-- Fresh lifecycle state, `MarkersLifecycle::new` over an empty container. -/
def lifecycleNew : LifecycleState := ⟨containerNew, [], []⟩

/-- Seconds denoted by a `lifetime` duration; used both for the
`lifetime.seconds() == 0.0` test and for the `chrono` delay
(`Duration::seconds(sec) + Duration::nanoseconds(nsec)`). -/
def lifetimeSeconds (d : DurationMsg) : Scalar := (d.sec : Scalar) + (d.nsec : Scalar) / 1000000000

/-- Embedding of `MarkersLifecycle::add_marker` at wall-clock time `now`:
add to the container, then — for a non-zero lifetime — schedule a one-shot
delete task at `now + lifetime` whose guard replaces (and thereby cancels)
any previous guard for the same `(ns, id)` key.  Note the schedule happens
even when the container add was skipped by a failed transform lookup. -/
def lifecycle_add_marker (ops : RealOps) (now : Scalar) (lookup : Option TransformMsg)
    (marker : MarkerMsg) (s : LifecycleState) : Option LifecycleState :=
  match container_add_marker ops lookup marker s.container with
  | none => none
  | some c =>
    if lifetimeSeconds marker.lifetime = 0 then
      some { s with container := c }
    else
      some { s with
             container := c,
             guards := alistInsert (marker.ns, marker.id)
               ⟨now + lifetimeSeconds marker.lifetime, false⟩ s.guards }

/-- Embedding of `MarkersLifecycle::delete_marker`: delete from the container
and record the key for the periodic guard cleanup. -/
def lifecycle_delete_marker (marker_ns : String) (marker_id : Int) (s : LifecycleState) :
    LifecycleState :=
  { s with
    container := container_delete_marker marker_ns marker_id s.container,
    deletedMarkers := s.deletedMarkers ++ [(marker_ns, marker_id)] }

/-- Embedding of `MarkersLifecycle::clear`: drop every guard (cancelling all
pending expiry tasks), forget the cleanup list, and clear the container. -/
def lifecycle_clear (s : LifecycleState) : LifecycleState :=
  ⟨container_clear s.container, [], []⟩

/-- Embedding of `MarkersLifecycle::clear_namespace`: clear one namespace and
queue the removed ids for guard cleanup (their guards stay scheduled). -/
def lifecycle_clear_namespace (marker_ns : String) (s : LifecycleState) : LifecycleState :=
  let res := container_clear_namespace marker_ns s.container
  { s with
    container := res.2,
    deletedMarkers := s.deletedMarkers ++ res.1.map (fun id => (marker_ns, id)) }

/-- Embedding of `MarkersLifecycle::get_lines`. -/
def lifecycle_get_lines (s : LifecycleState) : List LineM :=
  container_get_lines s.container

/-- Embedding of the periodic cleaner task scheduled in
`MarkersLifecycle::new`: drop the guards of the keys recorded as deleted and
clear that record. -/
def lifecycle_cleaner (s : LifecycleState) : LifecycleState :=
  { s with
    deletedMarkers := [],
    guards := s.guards.filter (fun e => ¬ e.1 ∈ s.deletedMarkers) }

/-- Timer semantics for the scheduled guards: walking the guard list, every
not-yet-fired guard whose fire time has been reached runs its task — which is
`container.delete_marker(ns, id)` — and is marked fired (the guard object
itself stays in the map until the cleaner drops it). -/
def fire_due_guards (t : Scalar) :
    List ((String × Int) × GuardE) → ContainerState →
    List ((String × Int) × GuardE) × ContainerState
  | [], c => ([], c)
  | (k, g) :: rest, c =>
    if ¬ g.fired ∧ g.fireAt ≤ t then
      let step := fire_due_guards t rest (container_delete_marker k.1 k.2 c)
      ((k, ⟨g.fireAt, true⟩) :: step.1, step.2)
    else
      let step := fire_due_guards t rest c
      ((k, g) :: step.1, step.2)

/-- Advance wall-clock time to `t`: all due expiry tasks have run. -/
def advance_to (t : Scalar) (s : LifecycleState) : LifecycleState :=
  let step := fire_due_guards t s.guards s.container
  { s with container := step.2, guards := step.1 }

/-- Whether the `(ns, id)` marker is visible to a query at time `t` (after
every expiry task due by `t` has fired). -/
def presentAt (t : Scalar) (s : LifecycleState) (ns : String) (id : Int) : Bool :=
  containerHas (advance_to t s).container ns id

/-- Embedding of the single-marker subscriber callback registered by
`MarkersListener::add_marker_listener`: dispatch on `msg.action as u8`
(ADD = 0, DELETE = 2, DELETEALL = 3).  DELETEALL calls
`MarkersLifecycle::clear`. -/
def marker_callback (ops : RealOps) (now : Scalar) (lookup : Option TransformMsg)
    (msg : MarkerMsg) (s : LifecycleState) : Option LifecycleState :=
  match as_u8 msg.action with
  | 0 => lifecycle_add_marker ops now lookup msg s
  | 2 => some (lifecycle_delete_marker msg.ns msg.id s)
  | 3 => some (lifecycle_clear s)
  | _ => some s

/-- Embedding of the marker-array subscriber callback registered by
`MarkersListener::add_marker_array_listener`: the same dispatch per array
element, except that DELETEALL calls `MarkersLifecycle::clear_namespace` on
the element's own namespace. -/
def marker_array_callback (ops : RealOps) (now : Scalar) :
    List (Option TransformMsg × MarkerMsg) → LifecycleState → Option LifecycleState
  | [], s => some s
  | (lookup, msg) :: rest, s =>
    let step : Option LifecycleState :=
      match as_u8 msg.action with
      | 0 => lifecycle_add_marker ops now lookup msg s
      | 2 => some (lifecycle_delete_marker msg.ns msg.id s)
      | 3 => some (lifecycle_clear_namespace msg.ns s)
      | _ => some s
    match step with
    | none => none
    | some s' => marker_array_callback ops now rest s'

/-! ## src/laser.rs -/

/-- Mirror of `sensor_msgs::LaserScan` (the fields the callback reads). -/
structure LaserScanMsg where
  frame_id : String
  angle_min : Scalar
  angle_increment : Scalar
  range_min : Scalar
  ranges : List Scalar
deriving DecidableEq, Repr

/-- Projection loop of the laser callback: for sample `i`,
`angle = angle_min + i * angle_increment`, project
`(range cos angle, range sin angle)` through the resolved transform, and keep
the point only when `range > range_min`.  (The source converts the composed
isometry back to a transform message before `transform_relative_pt`
re-normalises it; the model applies the composed isometry directly.) -/
def laser_scan_points (ops : RealOps) (tf : IsoM) (scan : LaserScanMsg) :
    List (Scalar × Scalar) :=
  scan.ranges.enum.filterMap (fun e =>
    let angle := scan.angle_min + (e.1 : Scalar) * scan.angle_increment
    let p := tf.transformPoint ⟨e.2 * ops.cos angle, e.2 * ops.sin angle, 0⟩
    if scan.range_min < e.2 then some (p.x, p.y) else none)

/-- Embedding of the subscriber callback in `LaserListener::new`: on a failed
transform lookup it returns at once, leaving the cached points unchanged;
otherwise it recomputes the full point set from scratch and replaces the
cache wholesale (`*cb_scan_points = points`). -/
def laser_callback (ops : RealOps) (lookup : Option TransformMsg) (view : IsoM)
    (scan : LaserScanMsg) (cache : List (Scalar × Scalar)) : List (Scalar × Scalar) :=
  match lookup with
  | none => cache
  | some tf => laser_scan_points ops ((isometry_from_transform tf).comp view) scan

/-! ## src/polygon.rs -/

/-- Mirror of `geometry_msgs::Point32` (f32 coordinates, cast to f64 by
`read_points`). -/
structure Point32Msg where
  x : Scalar
  y : Scalar
  z : Scalar
deriving DecidableEq, Repr

/-- Mirror of `geometry_msgs::Polygon`. -/
structure Polygon32Msg where
  points : List Point32Msg
deriving DecidableEq, Repr

/-- Mirror of `geometry_msgs::PolygonStamped`. -/
structure PolygonStampedMsg where
  header : HeaderMsg
  polygon : Polygon32Msg
deriving DecidableEq, Repr

/-- Embedding of `polygon::read_points`: lift every `f32` point to `f64`. -/
def read_points (msg : Polygon32Msg) : List Vec3 :=
  msg.points.map (fun pt => ⟨pt.x, pt.y, pt.z⟩)

/-- Mutable part of `PolygonData`: the last received message and the cached
lines.  (The `_color`, `_tf_listener` and `_static_frame` fields are
immutable configuration/connection state; the colour is passed as a
parameter and the lookup result as an `Option`.) -/
structure PolygonDataState where
  polygon_stamped_msg : Option PolygonStampedMsg
  lines_in_static_frame : Option (List LineM)
deriving DecidableEq, Repr

/-- Embedding of `PolygonData::update`: the cached lines are cleared to
`None` first; when a message is stored and the transform lookup succeeds the
lines are recomputed (consecutive points joined, exactly the
`previous_point` loop) and stored; on a failed lookup the `Err` branch does
nothing, leaving the cache cleared. -/
def polygon_data_update (color : ColorM) (lookup : Option TransformMsg)
    (d : PolygonDataState) : PolygonDataState :=
  let d := { d with lines_in_static_frame := none }
  match d.polygon_stamped_msg with
  | none => d
  | some polygon =>
    match lookup with
    | some tf =>
      let polygon_transform := isometry_from_transform tf
      let lines := strip_lines color none
        ((read_points polygon.polygon).map polygon_transform.transformPoint)
      { d with lines_in_static_frame := some lines }
    | none => d

/-- Embedding of the subscriber callback in `PolygonListener::new`: store the
incoming message, then run `update` (which performs the transform lookup). -/
def polygon_callback (color : ColorM) (lookup : Option TransformMsg)
    (msg : PolygonStampedMsg) (d : PolygonDataState) : PolygonDataState :=
  polygon_data_update color lookup { d with polygon_stamped_msg := some msg }

/-- Embedding of `PolygonData::get_lines`. -/
def polygon_get_lines (d : PolygonDataState) : List LineM :=
  match d.lines_in_static_frame with
  | some lines => lines
  | none => []

/-! ## src/map.rs -/

/-- Mirror of `nav_msgs::MapMetaData` (the fields the callback reads; the
grid `width` is positive for any well-formed grid, which the row/column
arithmetic below assumes just like the source's `usize` division). -/
structure MapInfoMsg where
  origin : PoseMsg
  resolution : Scalar
  width : ℕ
deriving DecidableEq, Repr

/-- Mirror of `nav_msgs::OccupancyGrid` (cell values are `i8`). -/
structure OccupancyGridMsg where
  header : HeaderMsg
  info : MapInfoMsg
  data : List Int
deriving DecidableEq, Repr

/-- Embedding of the subscriber callback in `MapListener::new`: on a failed
transform lookup it returns at once, leaving the cached points unchanged;
otherwise every cell at least as occupied as the threshold is placed at
`origin ∘ (resolution·(col, row))` and projected through the looked-up
transform, and the whole cache is replaced. -/
def map_callback (lookup : Option TransformMsg) (threshold : Int)
    (map : OccupancyGridMsg) (cache : List (Scalar × Scalar)) :
    List (Scalar × Scalar) :=
  match lookup with
  | none => cache
  | some tf =>
    let isometry := isometry_from_pose map.info.origin
    map.data.enum.filterMap (fun e =>
      let line := e.1 / map.info.width
      let column := e.1 - line * map.info.width
      if threshold ≤ e.2 then
        let trans_point := isometry.transformPoint
          ⟨(column : Scalar) * map.info.resolution,
           (line : Scalar) * map.info.resolution, 0⟩
        some (transform_relative_pt tf (trans_point.x, trans_point.y))
      else none)

/-! ## src/pointcloud.rs -/

/-- Oracle for the operations of the point-cloud decoder that have no
rational realisation: the IEEE 754 bit-level `f32` read from the packed byte
array, the `colorgrad` turbo gradient sample, and the `f64` NaN test (`ℚ`
has no NaN).  Every theorem below holds for an arbitrary instance. -/
structure CloudOps where
  readF32 : List ℕ → ℕ → Scalar
  turboAt : Scalar → ℕ × ℕ × ℕ
  isNaN : Scalar → Bool

/-- Mirror of `sensor_msgs::PointField` (the fields `get_channel_offset`
reads). -/
structure PointFieldMsg where
  name : String
  offset : ℕ
deriving DecidableEq, Repr

/-- Mirror of `sensor_msgs::PointCloud2` (the fields the callback reads). -/
structure PointCloud2Msg where
  header : HeaderMsg
  width : ℕ
  height : ℕ
  point_step : ℕ
  fields : List PointFieldMsg
  data : List ℕ
deriving DecidableEq, Repr

/-- A transformed point with its display colour (`pointcloud::ColoredPoint`;
`ColoredPoint::new(_, None)` defaults the colour to red). -/
structure ColoredPointM where
  point : Vec3
  color : ColorM
deriving DecidableEq, Repr

/-- Embedding of `pointcloud::get_channel_offset`: first field of the given
name, `panic!` (modelled `none`) when absent. -/
def get_channel_offset (name : String) : List PointFieldMsg → Option ℕ
  | [] => none
  | f :: rest => if f.name = name then some f.offset else get_channel_offset name rest

/-- Embedding of `pointcloud::read_xyz`: locate the "x"/"y"/"z" offsets by
name and read one `f32` per declared offset for each of the
`width * height` records. -/
def read_xyz (ops : CloudOps) (msg : PointCloud2Msg) : Option (List Vec3) :=
  match get_channel_offset "x" msg.fields, get_channel_offset "y" msg.fields,
      get_channel_offset "z" msg.fields with
  | some x_offset, some y_offset, some z_offset =>
    some ((List.range (msg.width * msg.height)).map (fun i =>
      let idx := i * msg.point_step
      ⟨ops.readF32 msg.data (idx + x_offset), ops.readF32 msg.data (idx + y_offset),
       ops.readF32 msg.data (idx + z_offset)⟩))
  | _, _, _ => none

/-- Embedding of `pointcloud::colorize_from_rgb`.  The source loops
`for i in 0..width*height` assigning `points[i].color` from three bytes of
the packed array; at its only call site `points` has exactly `width*height`
elements, so the loop is rendered as an index-aware map over the list, with
any out-of-range byte access a panic (`none`). -/
def colorize_from_rgb (points : List ColoredPointM) (msg : PointCloud2Msg) :
    Option (List ColoredPointM) :=
  match get_channel_offset "rgb" msg.fields with
  | none => none
  | some rgb_offset =>
    (points.mapIdx (fun i p =>
      let idx := i * msg.point_step + rgb_offset
      match msg.data.get? (idx + 2), msg.data.get? (idx + 1), msg.data.get? idx with
      | some r, some g, some b => some { p with color := ColorM.Rgb r g b }
      | _, _, _ => none)).mapM id

/-- Embedding of `pointcloud::colorize_points`: height-based colour from the
turbo gradient, normalised over the cloud's own z range. -/
def colorize_points (ops : CloudOps) (points : List ColoredPointM)
    (min_z max_z : Scalar) : List ColoredPointM :=
  points.map (fun pt =>
    let c := ops.turboAt ((pt.point.z - min_z) / (max_z - min_z))
    { pt with color := ColorM.Rgb c.1 c.2.1 c.2.2 })

/-- Largest finite `f64`, the initial values `f64::MIN` / `f64::MAX` of the
z-range fold. -/
def f64_MAX : Scalar := (2 ^ 53 - 1) * 2 ^ 971

/-- Embedding of the subscriber callback in `PointCloud2Listener::new`: on a
failed transform lookup it returns at once, leaving the cached points
unchanged; otherwise it decodes and transforms every record, tracks the z
range, colours the points (packed RGB or gradient), drops NaN-z points, and
replaces the cache wholesale.  A decode panic (missing field, short byte
array) is `none`. -/
def pointcloud_callback (ops : CloudOps) (use_rgb : Bool)
    (lookup : Option TransformMsg) (cloud : PointCloud2Msg)
    (cache : List ColoredPointM) : Option (List ColoredPointM) :=
  match lookup with
  | none => some cache
  | some tf =>
    let isometry := isometry_from_transform tf
    match read_xyz ops cloud with
    | none => none
    | some pts =>
      let trans := pts.map isometry.transformPoint
      let max_z := trans.foldl (fun acc p => if acc < p.z then p.z else acc) (-f64_MAX)
      let min_z := trans.foldl (fun acc p => if p.z < acc then p.z else acc) f64_MAX
      let points := trans.map (fun p => ColoredPointM.mk p ColorM.Red)
      let colored := if use_rgb then colorize_from_rgb points cloud
        else some (colorize_points ops points min_z max_z)
      match colored with
      | none => none
      | some colored => some (colored.filter (fun n => ¬ ops.isNaN n.point.z))

/-! ## src/app_modes/viewport.rs -/

/-- Input action strings from `app_modes::input`. -/
def input_ZOOM_IN : String := "Zoom in"

def input_ZOOM_OUT : String := "Zoom out"

def input_UP : String := "Up"

def input_DOWN : String := "Down"

def input_LEFT : String := "Left"

def input_RIGHT : String := "Right"

def input_ROTATE_LEFT : String := "Counter-clockwise rotation"

def input_ROTATE_RIGHT : String := "Clockwise rotation"

def input_INCREMENT_STEP : String := "Increment step"

def input_DECREMENT_STEP : String := "Decrement step"

/-- The viewport state the bounds/zoom code reads (`initial_bounds` is the
configured `[x_min, x_max, y_min, y_max]` vector). -/
structure ViewportState where
  initial_bounds : List Scalar
  zoom : Scalar
  zoom_factor : Scalar
  terminal_size : ℕ × ℕ
deriving DecidableEq, Repr

/-- Aspect correction factor `terminal_width / terminal_height * 0.5`
computed at the top of both bounds functions. -/
def viewport_scale_factor (v : ViewportState) : Scalar :=
  (v.terminal_size.1 : Scalar) / (v.terminal_size.2 : Scalar) * (1 / 2)

/-- Embedding of `Viewport::handle_input`: ZOOM_IN adds `zoom_factor` to the
zoom, ZOOM_OUT subtracts it (with no lower bound), anything else is
ignored. -/
def viewport_handle_input (input : String) (v : ViewportState) : ViewportState :=
  if input = input_ZOOM_IN then { v with zoom := v.zoom + v.zoom_factor }
  else if input = input_ZOOM_OUT then { v with zoom := v.zoom - v.zoom_factor }
  else v

/-- Embedding of `Viewport::x_bounds`; `lookup` is the static-to-robot
transform lookup.  Both branches scale the horizontal extent by the aspect
factor; the success branch additionally recentres on the robot `x`. -/
def viewport_x_bounds (v : ViewportState) (lookup : Option TransformMsg) :
    Scalar × Scalar :=
  let scale_factor := viewport_scale_factor v
  let ib0 := v.initial_bounds.getD 0 0
  let ib1 := v.initial_bounds.getD 1 0
  match lookup with
  | none => (ib0 / v.zoom * scale_factor, ib1 / v.zoom * scale_factor)
  | some tf =>
    (tf.translation.x + ib0 / v.zoom * scale_factor,
     tf.translation.x + ib1 / v.zoom * scale_factor)

/-- Embedding of `Viewport::y_bounds`.  The lookup-failure branch multiplies
the vertical extent by the aspect factor (viewport.rs lines 195-199), while
the success branch does not. -/
def viewport_y_bounds (v : ViewportState) (lookup : Option TransformMsg) :
    Scalar × Scalar :=
  let scale_factor := viewport_scale_factor v
  let ib2 := v.initial_bounds.getD 2 0
  let ib3 := v.initial_bounds.getD 3 0
  match lookup with
  | none => (ib2 / v.zoom * scale_factor, ib3 / v.zoom * scale_factor)
  | some tf =>
    (tf.translation.y + ib2 / v.zoom, tf.translation.y + ib3 / v.zoom)

/-- Embedding of `Viewport::get_frame_lines`: the red x-axis and green y-axis
strokes at the given pose. -/
def get_frame_lines (tf : TransformMsg) (axis_length : Scalar) : List LineM :=
  let base_x := transform_relative_pt tf (axis_length, 0)
  let base_y := transform_relative_pt tf (0, axis_length)
  [⟨tf.translation.x, tf.translation.y, base_x.1, base_x.2, ColorM.Red⟩,
   ⟨tf.translation.x, tf.translation.y, base_y.1, base_y.2, ColorM.Green⟩]

/-- Embedding of the robot-pose part of `Viewport::draw_in_viewport` (lines
236-258): the static-to-robot transform lookup result is `.unwrap()`-ed, so a
failed lookup panics the draw tick — modelled by `none`.  On success the
footprint segments and the frame axis lines are emitted (the footprint
itself can panic on a degenerate polygon). -/
def viewport_draw_robot (lookup : Option TransformMsg)
    (footprint : List (Scalar × Scalar)) (axis_length : Scalar) :
    Option (List (Scalar × Scalar × Scalar × Scalar) × List LineM) :=
  match lookup with
  | none => none
  | some tf =>
    match get_current_footprint tf footprint with
    | none => none
    | some segs => some (segs, get_frame_lines tf axis_length)

/-! ## src/app_modes/teleoperate.rs -/

/-- Mirror of the `Velocities` struct. -/
structure Velocities where
  x : Scalar
  y : Scalar
  theta : Scalar
deriving DecidableEq, Repr

/-- Embedding of `move_towards_zero`: positive values step down by the
increment and clamp at zero from above, non-positive values step up and
clamp at zero from below. -/
def move_towards_zero (num increment : Scalar) : Scalar :=
  if 0 < num then max (num - increment) 0 else min (num + increment) 0

/-- Safe-mode decay applied by `Teleoperate::run` on every tick: each
component moves toward zero by one increment. -/
def teleop_safe_tick (v : Velocities) (increment : Scalar) : Velocities :=
  ⟨move_towards_zero v.x increment, move_towards_zero v.y increment,
   move_towards_zero v.theta increment⟩

/-- Safe-mode branch of `Teleoperate::handle_input` restricted to the
velocity vector: directional inputs add twice the increment to a component,
clamped into `[-1.5, 1.5]`; the step inputs leave the velocities alone; any
unmapped input resets the velocities to zero (`self.reset()`). -/
def teleop_safe_input (input : String) (v : Velocities) (increment : Scalar) :
    Velocities :=
  if input = input_UP then { v with x := min (v.x + 2 * increment) (3 / 2) }
  else if input = input_DOWN then { v with x := max (v.x - 2 * increment) (-(3 / 2)) }
  else if input = input_LEFT then { v with y := min (v.y + 2 * increment) (3 / 2) }
  else if input = input_RIGHT then { v with y := max (v.y - 2 * increment) (-(3 / 2)) }
  else if input = input_ROTATE_LEFT then
    { v with theta := min (v.theta + 2 * increment) (3 / 2) }
  else if input = input_ROTATE_RIGHT then
    { v with theta := max (v.theta - 2 * increment) (-(3 / 2)) }
  else if input = input_INCREMENT_STEP then v
  else if input = input_DECREMENT_STEP then v
  else ⟨0, 0, 0⟩

/-! ## src/app_modes/send_pose.rs -/

/-- Planar pose as `nalgebra::Isometry2` stores it: translation plus the
unit-complex rotation `(re, im) = (cos yaw, sin yaw)`. -/
structure Pose2 where
  x : Scalar
  y : Scalar
  re : Scalar
  im : Scalar
deriving DecidableEq, Repr

/-- Component-wise `abs_diff_ne` on `Isometry2` with the given epsilon:
`nalgebra` compares the translation components and the unit-complex rotation
components, so the poses differ iff some of the four coordinates differ by
more than epsilon. -/
def pose2_abs_diff_ne (a b : Pose2) (eps : Scalar) : Prop :=
  ¬ (|a.x - b.x| ≤ eps ∧ |a.y - b.y| ≤ eps ∧ |a.re - b.re| ≤ eps ∧ |a.im - b.im| ≤ eps)

instance (a b : Pose2) (eps : Scalar) : Decidable (pose2_abs_diff_ne a b eps) := by
  unfold pose2_abs_diff_ne
  exact inferInstance

/-- The `SendPose` mode state the confirm action reads and writes. -/
structure SendPoseState where
  robot_pose : Pose2
  new_pose : Pose2
  ghost_active : Bool
deriving DecidableEq, Repr

/-- Embedding of `SendPose::send_new_pose`: when the ghost pose differs from
the live robot pose by more than `0.01` it is published (the wire conversion
to a quaternion message is abstracted to the planar pose itself) and the
ghost-active flag is cleared; otherwise nothing happens at all. -/
def send_new_pose (s : SendPoseState) : SendPoseState × Option Pose2 :=
  if pose2_abs_diff_ne s.new_pose s.robot_pose (1 / 100) then
    ({ s with ghost_active := false }, some s.new_pose)
  else (s, none)

/-! ## Theorems -/

/-- Uniform description of the footprint segments of a polygon with at least
two vertices: segment `i` joins transformed vertex `i` to transformed vertex
`(i+1) mod N`. -/
def footprint_seg (tf : TransformMsg) (poly : List (Scalar × Scalar)) (i : ℕ) :
    Scalar × Scalar × Scalar × Scalar :=
  let p := transform_relative_pt tf (poly.getD i (0, 0))
  let q := transform_relative_pt tf (poly.getD ((i + 1) % poly.length) (0, 0))
  (p.1, p.2, q.1, q.2)

theorem get_current_footprint_cons (tf : TransformMsg) (a b : Scalar × Scalar)
    (rest : List (Scalar × Scalar)) :
    get_current_footprint tf (a :: b :: rest) =
      some ((List.range (rest.length + 1)).map (fun i =>
          ((transform_relative_pt tf ((a :: b :: rest).getD i (0, 0))).1,
           (transform_relative_pt tf ((a :: b :: rest).getD i (0, 0))).2,
           (transform_relative_pt tf ((a :: b :: rest).getD (i + 1) (0, 0))).1,
           (transform_relative_pt tf ((a :: b :: rest).getD (i + 1) (0, 0))).2)) ++
        [((transform_relative_pt tf ((a :: b :: rest).getD (rest.length + 1) (0, 0))).1,
          (transform_relative_pt tf ((a :: b :: rest).getD (rest.length + 1) (0, 0))).2,
          (transform_relative_pt tf ((a :: b :: rest).getD 0 (0, 0))).1,
          (transform_relative_pt tf ((a :: b :: rest).getD 0 (0, 0))).2)]) := rfl

theorem footprint_eq_map (tf : TransformMsg) (a b : Scalar × Scalar)
    (rest : List (Scalar × Scalar)) :
    get_current_footprint tf (a :: b :: rest) =
      some ((List.range (a :: b :: rest).length).map (footprint_seg tf (a :: b :: rest))) := by
  have hmap : ∀ i ∈ List.range (rest.length + 1),
      footprint_seg tf (a :: b :: rest) i =
        ((transform_relative_pt tf ((a :: b :: rest).getD i (0, 0))).1,
         (transform_relative_pt tf ((a :: b :: rest).getD i (0, 0))).2,
         (transform_relative_pt tf ((a :: b :: rest).getD (i + 1) (0, 0))).1,
         (transform_relative_pt tf ((a :: b :: rest).getD (i + 1) (0, 0))).2) := by
    intro i hi
    have hi2 : i < rest.length + 1 := List.mem_range.mp hi
    have hmod : (i + 1) % (a :: b :: rest).length = i + 1 := by
      simp only [List.length_cons]; exact Nat.mod_eq_of_lt (by omega)
    simp only [footprint_seg, hmod]
  have hlast : footprint_seg tf (a :: b :: rest) (rest.length + 1) =
      ((transform_relative_pt tf ((a :: b :: rest).getD (rest.length + 1) (0, 0))).1,
       (transform_relative_pt tf ((a :: b :: rest).getD (rest.length + 1) (0, 0))).2,
       (transform_relative_pt tf ((a :: b :: rest).getD 0 (0, 0))).1,
       (transform_relative_pt tf ((a :: b :: rest).getD 0 (0, 0))).2) := by
    have hmod : (rest.length + 1 + 1) % (a :: b :: rest).length = 0 := by
      simp only [List.length_cons]; exact Nat.mod_self _
    simp only [footprint_seg, hmod]
  have hlen2 : (a :: b :: rest).length = (rest.length + 1) + 1 := by simp
  rw [get_current_footprint_cons, hlen2]
  conv_rhs => rw [List.range_succ, List.map_append, List.map_congr_left hmap,
    List.map_cons, List.map_nil, hlast]

/-- C4: for an N-point polygon (N ≥ 2) and any pose transform,
`get_current_footprint` succeeds with exactly N segments; segment `i` runs
from the transformed vertex `i` to the transformed vertex `(i+1) mod N`
(so in particular the closing edge joins the last vertex back to the first),
and segment `i`'s endpoint equals segment `(i+1) mod N`'s start point. -/
theorem footprint_closure_c4 (tf : TransformMsg) (poly : List (Scalar × Scalar))
    (h : 2 ≤ poly.length) :
    ∃ segs, get_current_footprint tf poly = some segs ∧
      segs.length = poly.length ∧
      (∀ i, i < poly.length → segs.getD i (0, 0, 0, 0) = footprint_seg tf poly i) ∧
      (∀ i, i < poly.length →
        (segs.getD i (0, 0, 0, 0)).2.2 =
          ((segs.getD ((i + 1) % poly.length) (0, 0, 0, 0)).1,
           (segs.getD ((i + 1) % poly.length) (0, 0, 0, 0)).2.1)) := by
  match poly, h with
  | a :: b :: rest, _ =>
    have hget : ∀ i, i < (a :: b :: rest).length →
        ((List.range (a :: b :: rest).length).map
            (footprint_seg tf (a :: b :: rest))).getD i (0, 0, 0, 0) =
          footprint_seg tf (a :: b :: rest) i := by
      intro i hi
      rw [List.getD_eq_getElem?_getD, List.getElem?_map, List.getElem?_range hi]
      rfl
    refine ⟨_, footprint_eq_map tf a b rest, by simp, hget, ?_⟩
    intro i hi
    have hmod : (i + 1) % (a :: b :: rest).length < (a :: b :: rest).length :=
      Nat.mod_lt _ (by simp)
    rw [hget i hi, hget _ hmod]
    rfl

/-- Witness for C4 at the default square footprint and the identity pose. -/
theorem footprint_closure_c4_witness :
    2 ≤ ([((1 : Scalar), (1 : Scalar)), (-1, 1), (-1, -1), (1, -1)] :
        List (Scalar × Scalar)).length ∧
    ∃ segs, get_current_footprint TransformMsg.id [(1, 1), (-1, 1), (-1, -1), (1, -1)] =
        some segs ∧
      segs.length = ([((1 : Scalar), (1 : Scalar)), (-1, 1), (-1, -1), (1, -1)] :
        List (Scalar × Scalar)).length ∧
      (∀ i, i < ([((1 : Scalar), (1 : Scalar)), (-1, 1), (-1, -1), (1, -1)] :
          List (Scalar × Scalar)).length →
        segs.getD i (0, 0, 0, 0) =
          footprint_seg TransformMsg.id [(1, 1), (-1, 1), (-1, -1), (1, -1)] i) ∧
      (∀ i, i < ([((1 : Scalar), (1 : Scalar)), (-1, 1), (-1, -1), (1, -1)] :
          List (Scalar × Scalar)).length →
        (segs.getD i (0, 0, 0, 0)).2.2 =
          ((segs.getD ((i + 1) % ([((1 : Scalar), (1 : Scalar)), (-1, 1), (-1, -1), (1, -1)] :
              List (Scalar × Scalar)).length) (0, 0, 0, 0)).1,
           (segs.getD ((i + 1) % ([((1 : Scalar), (1 : Scalar)), (-1, 1), (-1, -1), (1, -1)] :
              List (Scalar × Scalar)).length) (0, 0, 0, 0)).2.1)) :=
  ⟨by simp, footprint_closure_c4 TransformMsg.id [(1, 1), (-1, 1), (-1, -1), (1, -1)]
    (by simp)⟩

/-- C5: evaluation of `get_current_footprint` at polygons with fewer than two
points.  The empty polygon panics (usize underflow in `0..len() - 1` followed
by out-of-bounds indexing), modelled by `none`, and a one-point polygon
yields one degenerate segment — both contradicting the claim that such
polygons yield no segments and do not panic; the code contradicts the spec
requirement it was written against. -/
theorem footprint_degenerate_c5 :
    get_current_footprint TransformMsg.id [] = none ∧
    get_current_footprint TransformMsg.id [(1, 2)] = some [(1, 2, 1, 2)] := by
  constructor
  · rfl
  · simp [get_current_footprint, transform_relative_pt, isometry_from_transform,
      IsoM.transformPoint, QuatM.rotate, QuatM.normSq, QuatM.vec, Vec3.cross,
      Vec3.add, Vec3.smul, TransformMsg.id]

/-- Components of a velocity vector all within the safe-mode magnitude clamp
`1.5` that `Teleoperate::handle_input` enforces. -/
def velocity_bounded (v : Velocities) : Prop :=
  |v.x| ≤ 3 / 2 ∧ |v.y| ≤ 3 / 2 ∧ |v.theta| ≤ 3 / 2

theorem move_towards_zero_abs (c inc : Scalar) :
    |move_towards_zero c inc| = max (|c| - inc) 0 := by
  rw [move_towards_zero]
  split_ifs with hc
  · rw [abs_of_nonneg (le_max_right _ _), abs_of_pos hc]
  · rw [abs_of_nonpos (min_le_right _ _), abs_of_nonpos (not_lt.mp hc)]
    rcases le_total (c + inc) 0 with h1 | h1
    · rw [min_eq_left h1, max_eq_left (by linarith)]
      ring
    · rw [min_eq_right h1, max_eq_right (by linarith)]
      simp

theorem move_towards_zero_nonneg (c inc : Scalar) (hc : 0 ≤ c) (hinc : 0 ≤ inc) :
    0 ≤ move_towards_zero c inc := by
  rw [move_towards_zero]
  split_ifs with h
  · exact le_max_right _ _
  · exact le_min (by linarith) le_rfl

theorem move_towards_zero_nonpos (c inc : Scalar) (hc : c ≤ 0) :
    move_towards_zero c inc ≤ 0 := by
  rw [move_towards_zero]
  split_ifs with h
  · exact absurd h (not_lt.mpr hc)
  · exact min_le_right _ _

theorem teleop_safe_tick_bounded (v : Velocities) (inc : Scalar) (hinc : 0 ≤ inc)
    (hb : velocity_bounded v) : velocity_bounded (teleop_safe_tick v inc) := by
  obtain ⟨hx, hy, ht⟩ := hb
  refine ⟨?_, ?_, ?_⟩ <;>
    simp only [teleop_safe_tick, move_towards_zero_abs] <;>
    exact max_le (by linarith) (by norm_num)

theorem teleop_safe_input_bounded (input : String) (v : Velocities) (inc : Scalar)
    (hinc : 0 ≤ inc) (hb : velocity_bounded v) :
    velocity_bounded (teleop_safe_input input v inc) := by
  obtain ⟨hx, hy, ht⟩ := hb
  have h1 : ∀ a : Scalar, |a| ≤ 3 / 2 → |min (a + 2 * inc) (3 / 2)| ≤ 3 / 2 := by
    intro a ha
    rw [abs_le] at ha ⊢
    exact ⟨le_min (by linarith) (by norm_num), min_le_right _ _⟩
  have h2 : ∀ a : Scalar, |a| ≤ 3 / 2 → |max (a - 2 * inc) (-(3 / 2))| ≤ 3 / 2 := by
    intro a ha
    rw [abs_le] at ha ⊢
    exact ⟨le_max_right _ _, max_le (by linarith) (by norm_num)⟩
  unfold teleop_safe_input velocity_bounded
  split_ifs
  exacts [⟨h1 v.x hx, hy, ht⟩, ⟨h2 v.x hx, hy, ht⟩, ⟨hx, h1 v.y hy, ht⟩,
    ⟨hx, h2 v.y hy, ht⟩, ⟨hx, hy, h1 v.theta ht⟩, ⟨hx, hy, h2 v.theta ht⟩,
    ⟨hx, hy, ht⟩, ⟨hx, hy, ht⟩, ⟨by norm_num, by norm_num, by norm_num⟩]

theorem teleop_scenario_steps :
    teleop_safe_tick ⟨1, 0, 0⟩ (1 / 5) = ⟨4 / 5, 0, 0⟩ ∧
    teleop_safe_tick ⟨4 / 5, 0, 0⟩ (1 / 5) = ⟨3 / 5, 0, 0⟩ ∧
    teleop_safe_tick ⟨3 / 5, 0, 0⟩ (1 / 5) = ⟨2 / 5, 0, 0⟩ ∧
    teleop_safe_tick ⟨2 / 5, 0, 0⟩ (1 / 5) = ⟨1 / 5, 0, 0⟩ ∧
    teleop_safe_tick ⟨1 / 5, 0, 0⟩ (1 / 5) = ⟨0, 0, 0⟩ := by
  refine ⟨?_, ?_, ?_, ?_, ?_⟩ <;>
    · simp only [teleop_safe_tick, move_towards_zero, Velocities.mk.injEq]
      norm_num

theorem teleop_scenario_iterate :
    ((fun w => teleop_safe_tick w (1 / 5))^[5] ⟨1, 0, 0⟩ : Velocities) = ⟨0, 0, 0⟩ ∧
    ((fun w => teleop_safe_tick w (1 / 5))^[4] ⟨1, 0, 0⟩ : Velocities) = ⟨1 / 5, 0, 0⟩ := by
  constructor
  · show teleop_safe_tick (teleop_safe_tick (teleop_safe_tick (teleop_safe_tick
      (teleop_safe_tick ⟨1, 0, 0⟩ (1 / 5)) (1 / 5)) (1 / 5)) (1 / 5)) (1 / 5) = ⟨0, 0, 0⟩
    simp only [teleop_safe_tick, move_towards_zero, Velocities.mk.injEq]
    norm_num
  · show teleop_safe_tick (teleop_safe_tick (teleop_safe_tick
      (teleop_safe_tick ⟨1, 0, 0⟩ (1 / 5)) (1 / 5)) (1 / 5)) (1 / 5) = ⟨1 / 5, 0, 0⟩
    simp only [teleop_safe_tick, move_towards_zero, Velocities.mk.injEq]
    norm_num

/-- C8: in safe teleoperation mode, a tick with no refreshing input moves each
velocity component toward zero by exactly one increment magnitude, clamping at
zero without ever crossing sign; every component stays within the magnitude
clamp `1.5` under both the tick decay and the input handler; and starting from
`x = 1.0` with increment `0.2` the component decreases by `0.2` per tick,
is `0.2` after tick 4 and exactly `0.0` at tick 5, never negative. -/
theorem teleop_safe_decay_c8 (c : Scalar) (v : Velocities) (input : String)
    (inc : Scalar) (hinc : 0 ≤ inc) (hb : velocity_bounded v) :
    |move_towards_zero c inc| = max (|c| - inc) 0 ∧
    (0 ≤ c → 0 ≤ move_towards_zero c inc) ∧
    (c ≤ 0 → move_towards_zero c inc ≤ 0) ∧
    teleop_safe_tick v inc =
      ⟨move_towards_zero v.x inc, move_towards_zero v.y inc,
       move_towards_zero v.theta inc⟩ ∧
    velocity_bounded (teleop_safe_tick v inc) ∧
    velocity_bounded (teleop_safe_input input v inc) ∧
    ((fun w => teleop_safe_tick w (1 / 5))^[5] ⟨1, 0, 0⟩ : Velocities) = ⟨0, 0, 0⟩ ∧
    ((fun w => teleop_safe_tick w (1 / 5))^[4] ⟨1, 0, 0⟩ : Velocities) = ⟨1 / 5, 0, 0⟩ ∧
    teleop_safe_tick ⟨1, 0, 0⟩ (1 / 5) = ⟨4 / 5, 0, 0⟩ ∧
    teleop_safe_tick ⟨4 / 5, 0, 0⟩ (1 / 5) = ⟨3 / 5, 0, 0⟩ ∧
    teleop_safe_tick ⟨3 / 5, 0, 0⟩ (1 / 5) = ⟨2 / 5, 0, 0⟩ ∧
    teleop_safe_tick ⟨2 / 5, 0, 0⟩ (1 / 5) = ⟨1 / 5, 0, 0⟩ ∧
    teleop_safe_tick ⟨1 / 5, 0, 0⟩ (1 / 5) = ⟨0, 0, 0⟩ :=
  ⟨move_towards_zero_abs c inc,
   fun hc => move_towards_zero_nonneg c inc hc hinc,
   fun hc => move_towards_zero_nonpos c inc hc,
   rfl,
   teleop_safe_tick_bounded v inc hinc hb,
   teleop_safe_input_bounded input v inc hinc hb,
   teleop_scenario_iterate.1,
   teleop_scenario_iterate.2,
   teleop_scenario_steps.1,
   teleop_scenario_steps.2.1,
   teleop_scenario_steps.2.2.1,
   teleop_scenario_steps.2.2.2.1,
   teleop_scenario_steps.2.2.2.2⟩

/-- Witness for C8 at `c = 1`, the scenario velocity vector, the UP input and
increment `0.2`. -/
theorem teleop_safe_decay_c8_witness :
    (0 : Scalar) ≤ 1 / 5 ∧ velocity_bounded ⟨1, 0, 0⟩ ∧
    (|move_towards_zero 1 (1 / 5)| = max (|(1 : Scalar)| - 1 / 5) 0 ∧
     ((0 : Scalar) ≤ 1 → 0 ≤ move_towards_zero 1 (1 / 5)) ∧
     ((1 : Scalar) ≤ 0 → move_towards_zero 1 (1 / 5) ≤ 0) ∧
     teleop_safe_tick ⟨1, 0, 0⟩ (1 / 5) =
       ⟨move_towards_zero (Velocities.mk 1 0 0).x (1 / 5),
        move_towards_zero (Velocities.mk 1 0 0).y (1 / 5),
        move_towards_zero (Velocities.mk 1 0 0).theta (1 / 5)⟩ ∧
     velocity_bounded (teleop_safe_tick ⟨1, 0, 0⟩ (1 / 5)) ∧
     velocity_bounded (teleop_safe_input input_UP ⟨1, 0, 0⟩ (1 / 5)) ∧
     ((fun w => teleop_safe_tick w (1 / 5))^[5] ⟨1, 0, 0⟩ : Velocities) = ⟨0, 0, 0⟩ ∧
     ((fun w => teleop_safe_tick w (1 / 5))^[4] ⟨1, 0, 0⟩ : Velocities) = ⟨1 / 5, 0, 0⟩ ∧
     teleop_safe_tick ⟨1, 0, 0⟩ (1 / 5) = ⟨4 / 5, 0, 0⟩ ∧
     teleop_safe_tick ⟨4 / 5, 0, 0⟩ (1 / 5) = ⟨3 / 5, 0, 0⟩ ∧
     teleop_safe_tick ⟨3 / 5, 0, 0⟩ (1 / 5) = ⟨2 / 5, 0, 0⟩ ∧
     teleop_safe_tick ⟨2 / 5, 0, 0⟩ (1 / 5) = ⟨1 / 5, 0, 0⟩ ∧
     teleop_safe_tick ⟨1 / 5, 0, 0⟩ (1 / 5) = ⟨0, 0, 0⟩) :=
  ⟨by norm_num,
   by constructor <;> norm_num [velocity_bounded],
   teleop_safe_decay_c8 1 ⟨1, 0, 0⟩ input_UP (1 / 5) (by norm_num)
     (by constructor <;> norm_num [velocity_bounded])⟩

/-- C9: the pose-estimate confirm action publishes the ghost pose exactly when
it differs from the live robot pose by more than `0.01` in some component
(translation or unit-complex rotation coordinate); when it publishes it also
clears the ghost-active flag, and when the poses agree within `0.01` nothing
is published and the whole mode state is left unchanged. -/
theorem send_pose_confirm_c9 (s : SendPoseState) :
    (pose2_abs_diff_ne s.new_pose s.robot_pose (1 / 100) →
      send_new_pose s = ({ s with ghost_active := false }, some s.new_pose)) ∧
    (¬ pose2_abs_diff_ne s.new_pose s.robot_pose (1 / 100) →
      send_new_pose s = (s, none)) := by
  constructor
  · intro h
    rw [send_new_pose, if_pos h]
  · intro h
    rw [send_new_pose, if_neg h]

/-- Witness for C9: a ghost pose shifted by `1` publishes and clears the
ghost flag, a ghost pose equal to the live pose does not publish. -/
theorem send_pose_confirm_c9_witness :
    pose2_abs_diff_ne ⟨1, 0, 1, 0⟩ ⟨0, 0, 1, 0⟩ (1 / 100) ∧
    ¬ pose2_abs_diff_ne ⟨0, 0, 1, 0⟩ ⟨0, 0, 1, 0⟩ (1 / 100) ∧
    send_new_pose ⟨⟨0, 0, 1, 0⟩, ⟨1, 0, 1, 0⟩, true⟩ =
      (⟨⟨0, 0, 1, 0⟩, ⟨1, 0, 1, 0⟩, false⟩, some ⟨1, 0, 1, 0⟩) ∧
    send_new_pose ⟨⟨0, 0, 1, 0⟩, ⟨0, 0, 1, 0⟩, true⟩ =
      (⟨⟨0, 0, 1, 0⟩, ⟨0, 0, 1, 0⟩, true⟩, none) := by
  have hne : pose2_abs_diff_ne ⟨1, 0, 1, 0⟩ ⟨0, 0, 1, 0⟩ (1 / 100) := by
    rw [pose2_abs_diff_ne]
    norm_num
  have heq : ¬ pose2_abs_diff_ne ⟨0, 0, 1, 0⟩ ⟨0, 0, 1, 0⟩ (1 / 100) := by
    rw [pose2_abs_diff_ne]
    norm_num
  exact ⟨hne, heq,
    (send_pose_confirm_c9 ⟨⟨0, 0, 1, 0⟩, ⟨1, 0, 1, 0⟩, true⟩).1 hne,
    (send_pose_confirm_c9 ⟨⟨0, 0, 1, 0⟩, ⟨0, 0, 1, 0⟩, true⟩).2 heq⟩

/-- Apply a sequence of input actions to the viewport. -/
def viewport_run_inputs (v : ViewportState) (inputs : List String) : ViewportState :=
  inputs.foldl (fun w inp => viewport_handle_input inp w) v

/-- C6: the aspect-correction invariant evaluated in every branch of the
bounds code.  Here `scale_factor = 3/2 * 0.5 = 3/4` (terminal 3×2), zoom 1,
`initial_bounds = [-10, 10, -8, 8]`.  The horizontal bounds are scaled by the
factor in both branches and the vertical bounds are unscaled in the
lookup-success branch, but the lookup-failure branch of `y_bounds` also
multiplies by the factor, returning `(-6, 6)` where the claimed invariant
demands `(-8, 8)`. -/
theorem y_bounds_aspect_c6 :
    viewport_scale_factor ⟨[-10, 10, -8, 8], 1, 1 / 5, (3, 2)⟩ = 3 / 4 ∧
    viewport_x_bounds ⟨[-10, 10, -8, 8], 1, 1 / 5, (3, 2)⟩ none = (-15 / 2, 15 / 2) ∧
    viewport_x_bounds ⟨[-10, 10, -8, 8], 1, 1 / 5, (3, 2)⟩ (some TransformMsg.id) =
      (-15 / 2, 15 / 2) ∧
    viewport_y_bounds ⟨[-10, 10, -8, 8], 1, 1 / 5, (3, 2)⟩ (some TransformMsg.id) =
      (-8, 8) ∧
    viewport_y_bounds ⟨[-10, 10, -8, 8], 1, 1 / 5, (3, 2)⟩ none = (-6, 6) ∧
    ((-6 : Scalar), (6 : Scalar)) ≠ ((-8 : Scalar), (8 : Scalar)) := by
  refine ⟨?_, ?_, ?_, ?_, ?_, ?_⟩ <;>
    (simp [viewport_scale_factor, viewport_x_bounds, viewport_y_bounds, TransformMsg.id] <;>
      norm_num)

theorem viewport_zoom_out_iter (v : ViewportState) (n : ℕ) :
    (viewport_run_inputs v (List.replicate n input_ZOOM_OUT)).zoom =
        v.zoom - n * v.zoom_factor ∧
      (viewport_run_inputs v (List.replicate n input_ZOOM_OUT)).zoom_factor =
        v.zoom_factor := by
  induction n generalizing v with
  | zero => simp [viewport_run_inputs]
  | succ n ih =>
    have hstep : viewport_run_inputs v (List.replicate (n + 1) input_ZOOM_OUT) =
        viewport_run_inputs (viewport_handle_input input_ZOOM_OUT v)
          (List.replicate n input_ZOOM_OUT) := by
      simp [viewport_run_inputs, List.replicate_succ]
    have hout : viewport_handle_input input_ZOOM_OUT v =
        { v with zoom := v.zoom - v.zoom_factor } := by
      simp [viewport_handle_input, input_ZOOM_IN, input_ZOOM_OUT]
    rw [hstep, hout]
    obtain ⟨h1, h2⟩ := ih { v with zoom := v.zoom - v.zoom_factor }
    refine ⟨?_, h2⟩
    rw [h1]
    push_cast
    ring

/-- C10 counterexample: starting from the initial zoom `1` with
`zoom_factor = 0.2`, five ZOOM_OUT inputs drive the zoom to exactly `0`, yet a
single ZOOM_IN input from that state restores `zoom = 0.2 > 0` — refuting the
clause that no operation restores a positive zoom. -/
theorem zoom_unbounded_c10_counterexample :
    (viewport_run_inputs ⟨[-10, 10, -8, 8], 1, 1 / 5, (3, 2)⟩
        (List.replicate 5 input_ZOOM_OUT)).zoom = 0 ∧
    (viewport_handle_input input_ZOOM_IN ⟨[-10, 10, -8, 8], 0, 1 / 5, (3, 2)⟩).zoom =
      1 / 5 ∧
    (0 : Scalar) < 1 / 5 := by
  refine ⟨?_, ?_, by norm_num⟩
  · simp [viewport_run_inputs, viewport_handle_input, input_ZOOM_IN, input_ZOOM_OUT,
      List.replicate]
    norm_num
  · simp [viewport_handle_input, input_ZOOM_IN]

/-- C10 (amended): ZOOM_OUT unconditionally subtracts `zoom_factor` from the
zoom; for any positive `zoom_factor` some finite number of ZOOM_OUT inputs
drives the zoom from its initial value `1` to zero or below; with a negative
zoom the unguarded division in the bounds computation inverts the horizontal
bounds (minimum above maximum) in both lookup branches; and no input other
than ZOOM_IN ever increases the zoom — only a ZOOM_IN input can restore a
positive zoom. -/
theorem zoom_unbounded_c10 (v : ViewportState) (lookup : Option TransformMsg)
    (input : String) (hf : 0 < v.zoom_factor) (hzoom : v.zoom = 1) :
    (viewport_handle_input input_ZOOM_OUT v).zoom = v.zoom - v.zoom_factor ∧
    (∃ n : ℕ, (viewport_run_inputs v (List.replicate n input_ZOOM_OUT)).zoom ≤ 0) ∧
    (∀ w : ViewportState, w.zoom < 0 →
      w.initial_bounds.getD 0 0 < w.initial_bounds.getD 1 0 →
      0 < viewport_scale_factor w →
      (viewport_x_bounds w lookup).2 < (viewport_x_bounds w lookup).1) ∧
    (input ≠ input_ZOOM_IN → (viewport_handle_input input v).zoom ≤ v.zoom) ∧
    (∀ w : ViewportState, (viewport_handle_input input_ZOOM_IN w).zoom =
      w.zoom + w.zoom_factor) := by
  refine ⟨?_, ?_, ?_, ?_, ?_⟩
  · simp [viewport_handle_input, input_ZOOM_IN, input_ZOOM_OUT]
  · refine ⟨⌈(1 : Scalar) / v.zoom_factor⌉₊, ?_⟩
    rw [(viewport_zoom_out_iter v _).1, hzoom]
    have hle : (1 : Scalar) / v.zoom_factor ≤ (⌈(1 : Scalar) / v.zoom_factor⌉₊ : Scalar) :=
      Nat.le_ceil _
    have h2 : (1 : Scalar) / v.zoom_factor * v.zoom_factor = 1 :=
      div_mul_cancel₀ _ (ne_of_gt hf)
    have h3 := mul_le_mul_of_nonneg_right hle (le_of_lt hf)
    rw [h2] at h3
    linarith
  · intro w hz hib hsf
    rcases lookup with _ | tf
    · show w.initial_bounds.getD 1 0 / w.zoom * viewport_scale_factor w <
        w.initial_bounds.getD 0 0 / w.zoom * viewport_scale_factor w
      have hinv : w.zoom⁻¹ < 0 := inv_lt_zero.mpr hz
      rw [div_eq_mul_inv, div_eq_mul_inv]
      exact mul_lt_mul_of_pos_right (mul_lt_mul_of_neg_right hib hinv) hsf
    · show tf.translation.x + w.initial_bounds.getD 1 0 / w.zoom * viewport_scale_factor w <
        tf.translation.x + w.initial_bounds.getD 0 0 / w.zoom * viewport_scale_factor w
      have hinv : w.zoom⁻¹ < 0 := inv_lt_zero.mpr hz
      rw [div_eq_mul_inv, div_eq_mul_inv]
      exact add_lt_add_left (mul_lt_mul_of_pos_right
        (mul_lt_mul_of_neg_right hib hinv) hsf) _
  · intro hne
    rw [viewport_handle_input, if_neg hne]
    split_ifs with h
    · show v.zoom - v.zoom_factor ≤ v.zoom
      linarith
    · exact le_rfl
  · intro w
    simp [viewport_handle_input, input_ZOOM_IN]

/-- Witness for C10 at the initial viewport state with `zoom_factor = 0.2`,
a failing transform lookup, and the ZOOM_OUT input. -/
theorem zoom_unbounded_c10_witness :
    (0 : Scalar) < 1 / 5 ∧
    (ViewportState.mk [-10, 10, -8, 8] 1 (1 / 5) (3, 2)).zoom = 1 ∧
    ((viewport_handle_input input_ZOOM_OUT ⟨[-10, 10, -8, 8], 1, 1 / 5, (3, 2)⟩).zoom =
        1 - 1 / 5 ∧
      (∃ n : ℕ, (viewport_run_inputs ⟨[-10, 10, -8, 8], 1, 1 / 5, (3, 2)⟩
        (List.replicate n input_ZOOM_OUT)).zoom ≤ 0) ∧
      (∀ w : ViewportState, w.zoom < 0 →
        w.initial_bounds.getD 0 0 < w.initial_bounds.getD 1 0 →
        0 < viewport_scale_factor w →
        (viewport_x_bounds w none).2 < (viewport_x_bounds w none).1) ∧
      (input_ZOOM_OUT ≠ input_ZOOM_IN →
        (viewport_handle_input input_ZOOM_OUT
          ⟨[-10, 10, -8, 8], 1, 1 / 5, (3, 2)⟩).zoom ≤ 1) ∧
      (∀ w : ViewportState, (viewport_handle_input input_ZOOM_IN w).zoom =
        w.zoom + w.zoom_factor)) :=
  ⟨by norm_num, rfl,
   zoom_unbounded_c10 ⟨[-10, 10, -8, 8], 1, 1 / 5, (3, 2)⟩ none input_ZOOM_OUT
     (by norm_num) rfl⟩

theorem line_list_go_odd (color : ColorM) (iso : IsoM) :
    ∀ (ps : List PointMsg) (cs : List ColorRGBAMsg), Odd ps.length →
      line_list_go color iso ps cs = none
  | [], _, h => by simp at h
  | [_], _, _ => rfl
  | p1 :: p2 :: rest, cs, h => by
    have hr : Odd rest.length := by
      rcases h with ⟨k, hk⟩
      simp only [List.length_cons] at hk
      exact ⟨k - 1, by omega⟩
    simp only [line_list_go, line_list_go_odd color iso rest (cs.drop 2) hr]
    rfl

/-- Arrow marker with a single point (a count no arrow branch handles). -/
def arrowOnePoint : MarkerMsg :=
  ⟨⟨"map", 0⟩, "a", 7, 0, 0, PoseMsg.id, ⟨1, 1, 1⟩, ⟨0, 0, 0, 1⟩, ⟨0, 0⟩,
   [⟨1, 2, 3⟩], []⟩

/-- C7 counterexample: decoding an arrow marker whose point list has length 1
does not reach any fatal branch — it returns an (empty) primitive set, so the
claim that arrow decoding aborts for point counts other than 0 and 2 is
false. -/
theorem shape_abort_c7_counterexample :
    parse_marker_msg trivOps arrowOnePoint TransformMsg.id =
      some ⟨[], 7⟩ := by
  simp [parse_marker_msg, arrowOnePoint, as_u8, parse_arrow_msg]

/-- C7 (amended): a line-list marker with an odd number of points makes the
decoder panic on `point_it.next().expect(...)` (the error branch is reached),
while an arrow marker whose point count is neither 0 nor 2 falls to the
wildcard branch and returns an empty primitive set without aborting. -/
theorem shape_abort_c7 (ops : RealOps) (msg msg2 : MarkerMsg) (color : ColorM)
    (iso : IsoM) (h0 : msg.points.length ≠ 0) (h2 : msg.points.length ≠ 2)
    (hodd : Odd msg2.points.length) :
    parse_arrow_msg ops msg color iso = [] ∧
    parse_line_list_msg msg2 color iso = none := by
  constructor
  · rcases hp : msg.points with _ | ⟨a, _ | ⟨b, _ | ⟨c, rest⟩⟩⟩
    · exact absurd (by rw [hp]; rfl) h0
    · simp [parse_arrow_msg, hp]
    · exact absurd (by rw [hp]; rfl) h2
    · simp [parse_arrow_msg, hp]
  · exact line_list_go_odd color iso msg2.points msg2.colors hodd

/-- Line-list marker with three points (odd count). -/
def lineListOddPoints : MarkerMsg :=
  ⟨⟨"map", 0⟩, "a", 8, 5, 0, PoseMsg.id, ⟨1, 1, 1⟩, ⟨0, 0, 0, 1⟩, ⟨0, 0⟩,
   [⟨0, 0, 0⟩, ⟨1, 0, 0⟩, ⟨2, 0, 0⟩], []⟩

/-- Witness for C7 at the one-point arrow and the three-point line list. -/
theorem shape_abort_c7_witness :
    arrowOnePoint.points.length ≠ 0 ∧ arrowOnePoint.points.length ≠ 2 ∧
    Odd lineListOddPoints.points.length ∧
    (parse_arrow_msg trivOps arrowOnePoint (ColorM.Rgb 0 0 0) IsoM.id = [] ∧
     parse_line_list_msg lineListOddPoints (ColorM.Rgb 0 0 0) IsoM.id = none) :=
  ⟨by simp [arrowOnePoint], by simp [arrowOnePoint],
   by simp [lineListOddPoints]; decide,
   shape_abort_c7 trivOps arrowOnePoint lineListOddPoints (ColorM.Rgb 0 0 0) IsoM.id
     (by simp [arrowOnePoint]) (by simp [arrowOnePoint])
     (by simp [lineListOddPoints]; decide)⟩

theorem alistGet_modify_self {α : Type} (k : String) (f : α → α)
    (l : List (String × α)) :
    alistGet k (alistModify k f l) = (alistGet k l).map f := by
  induction l with
  | nil => rfl
  | cons e rest ih =>
    obtain ⟨k', v⟩ := e
    by_cases h : k' = k
    · simp [alistModify, alistGet, h]
    · simp [alistModify, alistGet, h, ih]

theorem alistGet_modify_ne {α : Type} (k' k : String) (f : α → α)
    (l : List (String × α)) (h : k' ≠ k) :
    alistGet k' (alistModify k f l) = alistGet k' l := by
  induction l with
  | nil => rfl
  | cons e rest ih =>
    obtain ⟨k0, v⟩ := e
    by_cases h0 : k0 = k
    · subst h0
      simp [alistModify, alistGet, show ¬ (k0 = k') from fun he => h he.symm]
    · by_cases h1 : k0 = k'
      · subst h1
        simp [alistModify, alistGet, h0, h]
      · simp [alistModify, alistGet, h0, h1, ih]

/-- Line-strip ADD marker used by the concrete marker scenarios. -/
def stripMarker (ns : String) (id : Int) (life : Int) : MarkerMsg :=
  ⟨⟨"map", 0⟩, ns, id, 4, 0, PoseMsg.id, ⟨1, 1, 1⟩, ⟨0, 0, 0, 1⟩, ⟨life, 0⟩,
   [⟨0, 0, 0⟩, ⟨1, 0, 0⟩], []⟩

/-- DELETEALL marker (action 3) carrying the given namespace. -/
def deleteAllMarker (ns : String) : MarkerMsg :=
  ⟨⟨"map", 0⟩, ns, 0, 4, 3, PoseMsg.id, ⟨1, 1, 1⟩, ⟨0, 0, 0, 1⟩, ⟨0, 0⟩, [], []⟩

/-- C1 counterexample: after ADDs in namespaces "a" and "b", a DELETEALL
processed through the marker-array callback only clears the namespace carried
by the DELETEALL marker ("a"); the marker of namespace "b" survives and
`get_lines` is non-empty, so DELETEALL via the array callback does not remove
every entry across all namespaces. -/
theorem marker_deleteall_c1_counterexample :
    ((marker_callback trivOps 0 (some TransformMsg.id) (stripMarker "a" 1 0)
        lifecycleNew).bind
      (marker_callback trivOps 0 (some TransformMsg.id) (stripMarker "b" 1 0))).bind
      (marker_array_callback trivOps 0 [(none, deleteAllMarker "a")]) =
      some ⟨⟨[("a", []), ("b", [(1, ⟨[⟨0, 0, 1, 0, ColorM.Rgb 0 0 0⟩], 1⟩)])]⟩,
        [("a", 1)], []⟩ ∧
    lifecycle_get_lines
        ⟨⟨[("a", []), ("b", [(1, ⟨[⟨0, 0, 1, 0, ColorM.Rgb 0 0 0⟩], 1⟩)])]⟩,
          [("a", 1)], []⟩ =
      [⟨0, 0, 1, 0, ColorM.Rgb 0 0 0⟩] ∧
    ([(⟨0, 0, 1, 0, ColorM.Rgb 0 0 0⟩ : LineM)] : List LineM) ≠ [] := by
  refine ⟨?_, rfl, by simp⟩
  simp [marker_callback, marker_array_callback, lifecycle_add_marker,
    lifecycle_clear_namespace, container_add_marker, container_clear_namespace,
    parse_marker_msg, parse_line_strip_msg, from_point_strips, strip_lines,
    lifecycleNew, containerNew, as_u8, lifetimeSeconds, stripMarker, deleteAllMarker,
    alistUpsert, alistGet, alistModify, alistInsert, isometry_from_transform,
    isometry_from_pose, IsoM.inverse, IsoM.comp, IsoM.transformPoint, QuatM.rotate,
    QuatM.conj, QuatM.mul, QuatM.normSq, QuatM.vec, QuatM.id, Vec3.cross, Vec3.add,
    Vec3.smul, Vec3.neg, TransformMsg.id, PoseMsg.id, color_from_rgb, f64_as_u8]

/-- C1 (amended): a DELETEALL processed by the single-marker callback removes
every entry across all namespaces, leaving an empty `get_lines` snapshot; a
DELETEALL processed by the marker-array callback instead clears only the
namespace carried by that marker — every id of that namespace is gone while
every other namespace is untouched. -/
theorem marker_deleteall_c1 (ops : RealOps) (now : Scalar)
    (lookup : Option TransformMsg) (msg : MarkerMsg) (s : LifecycleState)
    (h3 : as_u8 msg.action = 3) :
    marker_callback ops now lookup msg s = some (lifecycle_clear s) ∧
    lifecycle_get_lines (lifecycle_clear s) = [] ∧
    marker_array_callback ops now [(lookup, msg)] s =
      some (lifecycle_clear_namespace msg.ns s) ∧
    (∀ id : Int,
      containerHas (lifecycle_clear_namespace msg.ns s).container msg.ns id = false) ∧
    (∀ (ns' : String) (id : Int), ns' ≠ msg.ns →
      containerHas (lifecycle_clear_namespace msg.ns s).container ns' id =
        containerHas s.container ns' id) := by
  refine ⟨?_, rfl, ?_, ?_, ?_⟩
  · simp [marker_callback, h3]
  · simp [marker_array_callback, h3]
  · intro id
    simp only [lifecycle_clear_namespace, container_clear_namespace, containerHas,
      alistGet_modify_self]
    cases alistGet msg.ns s.container.markers with
    | none => rfl
    | some inner => rfl
  · intro ns' id hne
    simp only [lifecycle_clear_namespace, container_clear_namespace, containerHas,
      alistGet_modify_ne ns' msg.ns _ _ hne]

/-- Witness for C1 at a DELETEALL marker in namespace "a" over a container
holding one marker in "a" and one in "b". -/
theorem marker_deleteall_c1_witness :
    as_u8 (deleteAllMarker "a").action = 3 ∧
    (marker_callback trivOps 0 (some TransformMsg.id) (deleteAllMarker "a")
        ⟨⟨[("a", [(1, ⟨[], 1⟩)]), ("b", [(1, ⟨[], 1⟩)])]⟩, [], []⟩ =
      some (lifecycle_clear
        ⟨⟨[("a", [(1, ⟨[], 1⟩)]), ("b", [(1, ⟨[], 1⟩)])]⟩, [], []⟩) ∧
     lifecycle_get_lines (lifecycle_clear
        ⟨⟨[("a", [(1, ⟨[], 1⟩)]), ("b", [(1, ⟨[], 1⟩)])]⟩, [], []⟩) = [] ∧
     marker_array_callback trivOps 0 [(some TransformMsg.id, deleteAllMarker "a")]
        ⟨⟨[("a", [(1, ⟨[], 1⟩)]), ("b", [(1, ⟨[], 1⟩)])]⟩, [], []⟩ =
      some (lifecycle_clear_namespace (deleteAllMarker "a").ns
        ⟨⟨[("a", [(1, ⟨[], 1⟩)]), ("b", [(1, ⟨[], 1⟩)])]⟩, [], []⟩) ∧
     (∀ id : Int,
      containerHas (lifecycle_clear_namespace (deleteAllMarker "a").ns
        ⟨⟨[("a", [(1, ⟨[], 1⟩)]), ("b", [(1, ⟨[], 1⟩)])]⟩, [], []⟩).container
        (deleteAllMarker "a").ns id = false) ∧
     (∀ (ns' : String) (id : Int), ns' ≠ (deleteAllMarker "a").ns →
      containerHas (lifecycle_clear_namespace (deleteAllMarker "a").ns
        ⟨⟨[("a", [(1, ⟨[], 1⟩)]), ("b", [(1, ⟨[], 1⟩)])]⟩, [], []⟩).container ns' id =
        containerHas
          (ContainerState.mk [("a", [(1, ⟨[], 1⟩)]), ("b", [(1, ⟨[], 1⟩)])]) ns' id)) :=
  ⟨by simp [deleteAllMarker, as_u8],
   marker_deleteall_c1 trivOps 0 (some TransformMsg.id) (deleteAllMarker "a")
     ⟨⟨[("a", [(1, ⟨[], 1⟩)]), ("b", [(1, ⟨[], 1⟩)])]⟩, [], []⟩
     (by simp [deleteAllMarker, as_u8])⟩

/-- C3 counterexample: two violations of the claim at concrete inputs.
The polygon listener does not retain its cache on a failed lookup — the
callback stores the new message and `update` clears `lines_in_static_frame`
to `None` before the lookup, leaving it `None` on `Err`, so a previously
cached line is gone (and the new message is already stored: a partially
applied update).  And a failed static-to-robot lookup during the
steady-state draw tick is fatal: `draw_in_viewport` unwraps the lookup
result, so the tick panics (`none`) instead of retaining the previous draw
state. -/
theorem transform_failure_c3_counterexample :
    polygon_callback ColorM.Red none ⟨⟨"base", 1⟩, ⟨[]⟩⟩
        ⟨some ⟨⟨"base", 0⟩, ⟨[⟨0, 0, 0⟩, ⟨1, 0, 0⟩]⟩⟩,
         some [⟨0, 0, 1, 0, ColorM.Red⟩]⟩ =
      ⟨some ⟨⟨"base", 1⟩, ⟨[]⟩⟩, none⟩ ∧
    polygon_get_lines
        ⟨some ⟨⟨"base", 0⟩, ⟨[⟨0, 0, 0⟩, ⟨1, 0, 0⟩]⟩⟩,
         some [⟨0, 0, 1, 0, ColorM.Red⟩]⟩ =
      [⟨0, 0, 1, 0, ColorM.Red⟩] ∧
    polygon_get_lines ⟨some ⟨⟨"base", 1⟩, ⟨[]⟩⟩, none⟩ = [] ∧
    ([(⟨0, 0, 1, 0, ColorM.Red⟩ : LineM)] : List LineM) ≠ [] ∧
    viewport_draw_robot none [(1, 1), (-1, 1), (-1, -1), (1, -1)] (1 / 2) = none :=
  ⟨rfl, rfl, rfl, by simp, rfl⟩

/-- C3 (amended): a failed transform lookup is non-fatal and retains the
cached primitives unchanged for the laser, occupancy-grid and point-cloud
listeners — their callbacks return before touching the cache, and a
successful recompute replaces the cache wholesale with a result independent
of the previous cache contents (never a partial mix) — and for the marker
manager, whose container is untouched (though a skipped non-zero-lifetime
add still schedules its expiry task) and which never panics on a failed
lookup; the bounds computations fall back to the zoom-scaled initial bounds.
The polygon listener, however, stores the new message and clears its cached
lines before the lookup, leaving the cache empty on failure instead of
retaining it; and the draw tick's footprint/axes lookup `.unwrap()`s its
result and panics on failure.  (The pose, pose-array, path and image
listeners perform no transform lookup at all.) -/
theorem transform_failure_c3 (ops : RealOps) (view : IsoM) (scan : LaserScanMsg)
    (cache cache2 : List (Scalar × Scalar)) (tf : TransformMsg) (now : Scalar)
    (msg : MarkerMsg) (s : LifecycleState) (v : ViewportState)
    (fp : List (Scalar × Scalar)) (axis_length : Scalar) (threshold : Int)
    (grid : OccupancyGridMsg) (mcache mcache2 : List (Scalar × Scalar))
    (cops : CloudOps) (use_rgb : Bool) (cloud : PointCloud2Msg)
    (pcache pcache2 : List ColoredPointM) (color : ColorM)
    (pmsg : PolygonStampedMsg) (d d2 : PolygonDataState) :
    laser_callback ops none view scan cache = cache ∧
    laser_callback ops (some tf) view scan cache =
      laser_callback ops (some tf) view scan cache2 ∧
    map_callback none threshold grid mcache = mcache ∧
    map_callback (some tf) threshold grid mcache =
      map_callback (some tf) threshold grid mcache2 ∧
    pointcloud_callback cops use_rgb none cloud pcache = some pcache ∧
    pointcloud_callback cops use_rgb (some tf) cloud pcache =
      pointcloud_callback cops use_rgb (some tf) cloud pcache2 ∧
    (lifecycle_add_marker ops now none msg s).map LifecycleState.container =
      some s.container ∧
    (lifecycle_add_marker ops now none msg s).isSome = true ∧
    viewport_x_bounds v none =
      (v.initial_bounds.getD 0 0 / v.zoom * viewport_scale_factor v,
       v.initial_bounds.getD 1 0 / v.zoom * viewport_scale_factor v) ∧
    viewport_y_bounds v none =
      (v.initial_bounds.getD 2 0 / v.zoom * viewport_scale_factor v,
       v.initial_bounds.getD 3 0 / v.zoom * viewport_scale_factor v) ∧
    polygon_callback color none pmsg d = ⟨some pmsg, none⟩ ∧
    polygon_callback color (some tf) pmsg d =
      polygon_callback color (some tf) pmsg d2 ∧
    viewport_draw_robot none fp axis_length = none := by
  refine ⟨rfl, rfl, rfl, rfl, rfl, rfl, ?_, ?_, rfl, rfl, rfl, rfl, rfl⟩
  · simp only [lifecycle_add_marker, container_add_marker]
    split_ifs <;> rfl
  · simp only [lifecycle_add_marker, container_add_marker]
    split_ifs <;> rfl

theorem alistModify_get_none {κ α : Type} [DecidableEq κ] (k : κ) (f : α → α) :
    ∀ l : List (κ × α), alistGet k l = none → alistModify k f l = l
  | [], _ => rfl
  | (k0, v) :: rest, h => by
    by_cases h0 : k0 = k
    · rw [alistGet, if_pos h0] at h
      exact absurd h (by simp)
    · rw [alistGet, if_neg h0] at h
      rw [alistModify, if_neg h0, alistModify_get_none k f rest h]

theorem alistRemove_get_none {κ α : Type} [DecidableEq κ] (k : κ) :
    ∀ l : List (κ × α), alistGet k l = none → alistRemove k l = l
  | [], _ => rfl
  | (k0, v) :: rest, h => by
    by_cases h0 : k0 = k
    · rw [alistGet, if_pos h0] at h
      exact absurd h (by simp)
    · rw [alistGet, if_neg h0] at h
      rw [alistRemove, if_neg h0, alistRemove_get_none k rest h]

theorem alistModify_fix {κ α : Type} [DecidableEq κ] (k : κ) (f : α → α) :
    ∀ (l : List (κ × α)) (v : α), alistGet k l = some v → f v = v →
      alistModify k f l = l
  | [], v, h, _ => by simp [alistGet] at h
  | (k0, v0) :: rest, v, h, hf => by
    by_cases h0 : k0 = k
    · rw [alistGet, if_pos h0] at h
      have hv : v0 = v := by
        injection h
      rw [alistModify, if_pos h0, hv, hf]
    · rw [alistGet, if_neg h0] at h
      rw [alistModify, if_neg h0, alistModify_fix k f rest v h hf]

/-- Deleting a key that is not in the container leaves the container exactly
as it was: the expiry task firing after its marker is gone is a no-op. -/
theorem container_delete_absent (c : ContainerState) (ns : String) (id : Int)
    (h : containerHas c ns id = false) : container_delete_marker ns id c = c := by
  rw [containerHas] at h
  rcases ho : alistGet ns c.markers with _ | inner
  · rw [container_delete_marker, alistModify_get_none ns _ c.markers ho]
  · have hid : alistGet id inner = none := by
      rw [ho] at h
      simpa using h
    rw [container_delete_marker,
      alistModify_fix ns _ c.markers inner ho (alistRemove_get_none id inner hid)]

/-- C2: lifecycle of a marker with non-zero lifetime `L`, starting from the
fresh lifecycle state.  After a successful ADD at time `t1` the marker is
present immediately; a query at any time `tq` past the deadline `t1 + L`
(with no intervening re-ADD) finds it gone, the expiry guard having fired;
re-ADDing the same `(ns, id)` at `tr` before the deadline replaces — and
thereby cancels — the pending guard, so the marker is still present at a
query time `t3` past the original deadline (but before the new one); and the
expiry task firing when the key is already gone leaves the container
unchanged (idempotent no-op). -/
theorem marker_lifetime_c2 (ops : RealOps) (msg : MarkerMsg) (tf : TransformMsg)
    (m : TermvizMarker) (t1 tq tr t3 : Scalar)
    (hparse : parse_marker_msg ops msg tf = some m)
    (hL : 0 < lifetimeSeconds msg.lifetime)
    (hq : t1 + lifetimeSeconds msg.lifetime < tq)
    (hr : tr < t1 + lifetimeSeconds msg.lifetime)
    (h3a : t1 + lifetimeSeconds msg.lifetime < t3)
    (h3b : t3 < tr + lifetimeSeconds msg.lifetime) :
    (∃ s1, lifecycle_add_marker ops t1 (some tf) msg lifecycleNew = some s1 ∧
      containerHas s1.container msg.ns msg.id = true ∧
      presentAt tq s1 msg.ns msg.id = false ∧
      (∃ s2, lifecycle_add_marker ops tr (some tf) msg (advance_to tr s1) = some s2 ∧
        presentAt t3 s2 msg.ns msg.id = true)) ∧
    (∀ (c : ContainerState) (ns : String) (id : Int),
      containerHas c ns id = false → container_delete_marker ns id c = c) := by
  have hid : m.id = msg.id := by
    rw [parse_marker_msg] at hparse
    obtain ⟨lines, -, hm⟩ := Option.map_eq_some'.mp hparse
    rw [← hm]
  have hLne : ¬ (lifetimeSeconds msg.lifetime = 0) := ne_of_gt hL
  refine ⟨?_, fun c ns id h => container_delete_absent c ns id h⟩
  refine ⟨⟨⟨[(msg.ns, [(msg.id, m)])]⟩, [],
    [((msg.ns, msg.id), ⟨t1 + lifetimeSeconds msg.lifetime, false⟩)]⟩, ?_, ?_, ?_, ?_⟩
  · simp [lifecycle_add_marker, container_add_marker, hparse, lifecycleNew,
      containerNew, alistUpsert, alistGet, alistInsert, hLne, hid]
  · simp [containerHas, alistGet]
  · simp [presentAt, advance_to, fire_due_guards, container_delete_marker,
      alistModify, alistRemove, containerHas, alistGet, hq.le]
  · have hnr : ¬ (t1 + lifetimeSeconds msg.lifetime ≤ tr) := not_le.mpr hr
    have hadv : advance_to tr
        ⟨⟨[(msg.ns, [(msg.id, m)])]⟩, [],
          [((msg.ns, msg.id), ⟨t1 + lifetimeSeconds msg.lifetime, false⟩)]⟩ =
        ⟨⟨[(msg.ns, [(msg.id, m)])]⟩, [],
          [((msg.ns, msg.id), ⟨t1 + lifetimeSeconds msg.lifetime, false⟩)]⟩ := by
      simp [advance_to, fire_due_guards, hnr]
    rw [hadv]
    refine ⟨⟨⟨[(msg.ns, [(msg.id, m)])]⟩, [],
      [((msg.ns, msg.id), ⟨tr + lifetimeSeconds msg.lifetime, false⟩)]⟩, ?_, ?_⟩
    · simp [lifecycle_add_marker, container_add_marker, hparse, alistUpsert,
        alistGet, alistModify, alistInsert, hLne, hid]
    · have hn3 : ¬ (tr + lifetimeSeconds msg.lifetime ≤ t3) := not_le.mpr h3b
      simp [presentAt, advance_to, fire_due_guards, hn3, containerHas, alistGet]

/-- Witness for C2: a line-strip marker in namespace "a" with id 1 and
lifetime 1 s, added at `t1 = 0`, queried at `tq = 2`, re-added at
`tr = 1/2` and queried again at `t3 = 5/4`. -/
theorem marker_lifetime_c2_witness :
    parse_marker_msg trivOps (stripMarker "a" 1 1) TransformMsg.id =
      some ⟨[⟨0, 0, 1, 0, ColorM.Rgb 0 0 0⟩], 1⟩ ∧
    0 < lifetimeSeconds (stripMarker "a" 1 1).lifetime ∧
    (0 : Scalar) + lifetimeSeconds (stripMarker "a" 1 1).lifetime < 2 ∧
    (1 / 2 : Scalar) < 0 + lifetimeSeconds (stripMarker "a" 1 1).lifetime ∧
    (0 : Scalar) + lifetimeSeconds (stripMarker "a" 1 1).lifetime < 5 / 4 ∧
    (5 / 4 : Scalar) < 1 / 2 + lifetimeSeconds (stripMarker "a" 1 1).lifetime ∧
    ((∃ s1, lifecycle_add_marker trivOps 0 (some TransformMsg.id) (stripMarker "a" 1 1)
        lifecycleNew = some s1 ∧
      containerHas s1.container (stripMarker "a" 1 1).ns (stripMarker "a" 1 1).id =
        true ∧
      presentAt 2 s1 (stripMarker "a" 1 1).ns (stripMarker "a" 1 1).id = false ∧
      (∃ s2, lifecycle_add_marker trivOps (1 / 2) (some TransformMsg.id)
          (stripMarker "a" 1 1) (advance_to (1 / 2) s1) = some s2 ∧
        presentAt (5 / 4) s2 (stripMarker "a" 1 1).ns (stripMarker "a" 1 1).id =
          true)) ∧
     (∀ (c : ContainerState) (ns : String) (id : Int),
       containerHas c ns id = false → container_delete_marker ns id c = c)) := by
  have hparse : parse_marker_msg trivOps (stripMarker "a" 1 1) TransformMsg.id =
      some ⟨[⟨0, 0, 1, 0, ColorM.Rgb 0 0 0⟩], 1⟩ := by
    simp [parse_marker_msg, parse_line_strip_msg, from_point_strips, strip_lines,
      as_u8, stripMarker, isometry_from_transform, isometry_from_pose, IsoM.inverse,
      IsoM.comp, IsoM.transformPoint, QuatM.rotate, QuatM.conj, QuatM.mul,
      QuatM.normSq, QuatM.vec, Vec3.cross, Vec3.add, Vec3.smul, Vec3.neg,
      TransformMsg.id, PoseMsg.id, color_from_rgb, f64_as_u8]
  have hL : lifetimeSeconds (stripMarker "a" 1 1).lifetime = 1 := by
    simp [lifetimeSeconds, stripMarker]
  refine ⟨hparse, by rw [hL]; norm_num, by rw [hL]; norm_num, by rw [hL]; norm_num,
    by rw [hL]; norm_num, by rw [hL]; norm_num, ?_⟩
  exact marker_lifetime_c2 trivOps (stripMarker "a" 1 1) TransformMsg.id
    ⟨[⟨0, 0, 1, 0, ColorM.Rgb 0 0 0⟩], 1⟩ 0 2 (1 / 2) (5 / 4) hparse
    (by rw [hL]; norm_num) (by rw [hL]; norm_num) (by rw [hL]; norm_num)
    (by rw [hL]; norm_num) (by rw [hL]; norm_num)
